import Mathlib

set_option maxHeartbeats 1000000

/-!
Verification development for the pptx-mcp server (`src/server.py`).

The server edits PowerPoint documents through the python-pptx library and
persists them under a fixed save directory.  The interesting logic is the
`batch_update` interpreter: it loads one presentation, threads an in-memory
symbol table (`object_map`) through an ordered list of requests, and saves
only after every request has succeeded.

This file shallowly embeds that logic:

* the python-pptx document model is embedded as plain Lean structures
  (`Presentation`, `Slide`, `Shape`, `TextFrame`, `Para`).  The library is an
  external collaborator, so library behaviour is modelled at its interface:
  shape identifiers are drawn from a per-document counter `nextShapeId`
  (python-pptx guarantees uniqueness of live ids, which is all the code
  relies on); a presentation freshly created by `Presentation()` carries the
  default template's 11 layouts and no slides; `prs.slides.add_slide(layout)`
  is modelled as appending a blank slide (the claims below only ever
  instantiate blank layouts, so placeholder cloning is not modelled); image
  payload decoding/parsing is treated as opaque and total, since no claim
  exercises image bytes.
* dynamically typed request parameters are embedded as the `PVal` value type
  with Python truthiness (`PVal.truthy`) and Python's `bool <= int`
  subtyping (`pvalAsInt`).
* Python dict state (`object_map`, request params) is embedded as
  association lists with first-match lookup.
* a Python `Slide` object stored in `object_map` is embedded as the slide's
  position at binding time (`MapVal.slideIdx`): the interpreter only ever
  appends slides, so the position denotes the same object forever.
* `raise`/`try`/`except` becomes `Except`; each MCP tool returns a `ToolOut`
  recording the resulting on-disk state and how many times
  `_save_presentation` ran, so the save-exactly-once / no-save-on-error
  contracts are visible in the model.
* an error raised after an in-memory mutation aborts the whole call without
  saving, so handlers that fail simply return the error and drop the
  in-memory value, which is observationally the same.
* `pathlib` name handling (`Path(...).name`, `resolve`, `is_relative_to`)
  is embedded at the character/component level (`pyPathName`,
  `normalizePath`).
-/

namespace PptxSpec

/-- Dynamically-typed request parameter values (the JSON-ish values the
Python code receives). -/
inductive PVal where
  | int (i : Int)
  | str (s : String)
  | bool (b : Bool)
  | intList (l : List Int)
  deriving Repr, DecidableEq

/-- Python truthiness of a parameter value (`if v:`). -/
def PVal.truthy : PVal → Bool
  | .int i => i != 0
  | .str s => s != ""
  | .bool b => b
  | .intList l => !l.isEmpty

/-- Python `str(v)`. -/
def PVal.pyStr : PVal → String
  | .str s => s
  | .int i => toString i
  | .bool b => if b then "True" else "False"
  | .intList l => toString l

/-- Python `bool` is a subtype of `int`, so `isinstance(v, int)` accepts
booleans; other values are not ints. -/
def pvalAsInt : PVal → Option Int
  | .int i => some i
  | .bool b => some (if b then 1 else 0)
  | _ => none

/-- A request's parameter dictionary (JSON object: keys unique). -/
abbrev Params := List (String × PVal)

/-- `params.get(key)`. -/
def pget (ps : Params) (k : String) : Option PVal := List.lookup k ps

/-- `key in params`. -/
def phas (ps : Params) (k : String) : Bool := (pget ps k).isSome

/-- One paragraph of a text frame: its text, and explicitly set font size /
bold state (python-pptx leaves them `None` = inherit unless assigned). -/
structure Para where
  text : String
  size : Option Int
  bold : Option Bool
  deriving Repr, DecidableEq

/-- A shape's text frame: paragraphs plus the word-wrap flag (`None` =
library default unless assigned). -/
structure TextFrame where
  paras : List Para
  wordWrap : Option Bool
  deriving Repr, DecidableEq

/-- Shape kinds occurring in the server: auto shapes (`MSO_SHAPE` member
name), text boxes, pictures and connectors (with the ids of the shapes the
endpoints were attached to, if any). -/
inductive ShapeKind where
  | auto (typeName : String)
  | textbox
  | picture
  | connector (typeName : String) (beginId endId : Option Nat)
  deriving Repr, DecidableEq

/-- A shape on a slide.  `id` is the library-assigned unique identifier. -/
structure Shape where
  id : Nat
  kind : ShapeKind
  left : Int
  top : Int
  width : Int
  height : Int
  tf : Option TextFrame
  fill : Option (List Int)
  lineColor : Option (List Int)
  lineWidth : Option Int
  deriving Repr, DecidableEq

/-- `shape.has_text_frame`. -/
def Shape.hasTextFrame (s : Shape) : Bool := s.tf.isSome

/-- A slide: the layout index it was created from and its shape list
(in z-order, shapes are always appended). -/
structure Slide where
  layoutIdx : Nat
  shapes : List Shape
  deriving Repr, DecidableEq

/-- A presentation: the number of slide layouts of its template, the slide
sequence, and the next library-assigned shape id. -/
structure Presentation where
  layoutCount : Nat
  slides : List Slide
  nextShapeId : Nat
  deriving Repr, DecidableEq

/-- `pptx.Presentation()`: the default template has 11 layouts and no
slides; first assigned shape id is 2. -/
def emptyPresentation : Presentation := ⟨11, [], 2⟩

/-- Placeholder slide used as a `getD` default (never actually selected at
valid indices). -/
def defSlide : Slide := ⟨0, []⟩

/-- A freshly created auto shape / text box has one empty paragraph and an
unset word-wrap flag. -/
def emptyTF : TextFrame := ⟨[⟨"", none, none⟩], none⟩

/-- Fuel-driven splitter on character lists: Python `str.split(sep)` for a
non-empty separator. -/
def splitSubAux : Nat → List Char → List Char → List Char → List (List Char)
  | 0, _, cur, _ => [cur.reverse]
  | _ + 1, [], cur, _ => [cur.reverse]
  | fuel + 1, c :: rest, cur, sep =>
    if sep.isPrefixOf (c :: rest) then
      cur.reverse :: splitSubAux fuel ((c :: rest).drop sep.length) [] sep
    else
      splitSubAux fuel rest (c :: cur) sep

/-- Python `s.split(sep)` for a non-empty separator `sep`. -/
def pySplit (s sep : String) : List String :=
  (splitSubAux (s.data.length + 1) s.data [] sep.data).map (fun l => ⟨l⟩)

/-- The real newline separator used by the single-shot tools
(`text.split('\n')`). -/
def realNL : String := "\n"

/-- The literal backslash-n two-character separator used by the batch
handlers (`str(text).split('\\n')` in the Python source). -/
def litNL : String := "\\n"

/-- Build the paragraph list the handlers produce from a list of lines with
a uniform font size / bold state. -/
def mkParas (lines : List String) (size : Option Int) (bold : Option Bool) : List Para :=
  lines.map (fun l => ⟨l, size, bold⟩)

/-- What a batch symbol can be bound to: a `Slide` object (embedded as the
slide's position at binding time — slides are only ever appended) or a raw
shape id (`int`). -/
inductive MapVal where
  | slideIdx (i : Nat)
  | shapeId (n : Nat)
  deriving Repr, DecidableEq

/-- The batch-scoped `object_map`. -/
abbrev ObjectMap := List (String × MapVal)

/-- `object_map.get(k)`. -/
def omGet : ObjectMap → String → Option MapVal
  | [], _ => none
  | kv :: t, x => if kv.1 = x then some kv.2 else omGet t x

/-- Drop every pair with key `k`. -/
def omRemove : ObjectMap → String → ObjectMap
  | [], _ => []
  | kv :: t, x => if kv.1 = x then omRemove t x else kv :: omRemove t x

/-- `object_map[k] = v` (dict assignment overwrites any previous binding). -/
def omSet (m : ObjectMap) (k : String) (v : MapVal) : ObjectMap :=
  (k, v) :: omRemove m k

/-- `del object_map[k]` (also the identity when `k` is absent, matching the
guarded `if k in object_map: del object_map[k]`). -/
def omDel (m : ObjectMap) (k : String) : ObjectMap :=
  omRemove m k

/-- Errors raised by handlers and resolvers (each constructor stands for one
`raise` site / message shape in the source). -/
inductive OpError where
  | slideIndexOutOfRange (idx : Int) (count : Nat)
  | resolvedSlideOutOfBounds (idx : Nat)
  | slideRefUnknown (ref : String)
  | shapeRefUnknown (ref : String)
  | couldNotResolveSlide
  | couldNotResolveShape
  | shapeIdNotFound (sid : Int) (available : List Nat)
  | layoutIndexOutOfRange (idx : Int) (count : Nat)
  | unknownShapeType (name : String)
  | unknownConnectorType (name : String)
  | missingParam (op : String) (key : String)
  | badParamType (key : String)
  | unsupportedOperation (op : String)
  deriving Repr, DecidableEq

/-- A slide / shape reference as the resolvers type it: `Union[str, int]`. -/
inductive Ref where
  | int (i : Int)
  | str (s : String)
  deriving Repr, DecidableEq

/-- Classify a dynamic parameter value the way `isinstance(x, int)` /
`isinstance(x, str)` do in the resolvers (booleans are ints in Python). -/
def PVal.toRef : PVal → Option Ref
  | .int i => some (.int i)
  | .bool b => some (.int (if b then 1 else 0))
  | .str s => some (.str s)
  | .intList _ => none

/-- `_resolve_slide_obj`: resolve a page reference to a slide position.
An int is a 0-based position; a string is looked up in `object_map` — a
bound `Slide` object is returned directly, a bound int is (re)used as a
slide index, anything else is an unknown reference. -/
def resolveSlideIdx (prs : Presentation) (m : ObjectMap) (r : Ref) : Except OpError Nat :=
  match r with
  | .int i =>
    if 0 ≤ i ∧ i < (prs.slides.length : Int) then .ok i.toNat
    else .error (.slideIndexOutOfRange i prs.slides.length)
  | .str s =>
    match omGet m s with
    | some (.slideIdx k) => .ok k
    | some (.shapeId n) =>
      if n < prs.slides.length then .ok n
      else .error (.resolvedSlideOutOfBounds n)
    | none => .error (.slideRefUnknown s)

/-- `_resolve_slide_obj` on a dynamic value (non-int, non-str references
fall through both `isinstance` checks and hit the safeguard error). -/
def resolveSlidePV (prs : Presentation) (m : ObjectMap) (v : PVal) : Except OpError Nat :=
  match v.toRef with
  | some r => resolveSlideIdx prs m r
  | none => .error .couldNotResolveSlide

/-- `_get_shape_by_id`: scan the slide's shapes for the first one with the
given id; the failure lists the available ids. -/
def getShapeById (sl : Slide) (sid : Int) : Except OpError Shape :=
  match sl.shapes.find? (fun s => (s.id : Int) == sid) with
  | some s => .ok s
  | none => .error (.shapeIdNotFound sid (sl.shapes.map (fun s => s.id)))

/-- First half of `_resolve_shape_obj`: turn a shape reference into an
actual shape id.  An int is used directly; a string must be bound to a
shape id in `object_map` (a binding to a `Slide` object is "not a shape
ID"). -/
def resolveShapeId (m : ObjectMap) (r : Ref) : Except OpError Int :=
  match r with
  | .int i => .ok i
  | .str s =>
    match omGet m s with
    | some (.shapeId n) => .ok (n : Int)
    | some (.slideIdx _) => .error (.shapeRefUnknown s)
    | none => .error (.shapeRefUnknown s)

/-- `_resolve_shape_obj` entry: dynamic value version. -/
def resolveShapePV (m : ObjectMap) (v : PVal) : Except OpError Int :=
  match v.toRef with
  | some r => resolveShapeId m r
  | none => .error .couldNotResolveShape

/-- `_resolve_shape_obj`: reference to live shape on a slide. -/
def resolveShapeObj (sl : Slide) (m : ObjectMap) (v : PVal) : Except OpError Shape :=
  match resolveShapePV m v with
  | .ok sid => getShapeById sl sid
  | .error e => .error e

/-- The payload of one batch reply (`current_reply[op]` in the source):
either empty, an echoed user object id, a library shape id, or the
modify-shape payload that also carries the list of applied changes. -/
inductive ReplyPayload where
  | empty
  | objIdStr (s : String)
  | objIdNum (n : Nat)
  | shapeNum (n : Nat)
  | modifyStr (s : String) (changes : List String)
  | modifyNum (n : Nat) (changes : List String)
  deriving Repr, DecidableEq

/-- One batch reply: `{operation_name: payload}`. -/
structure Reply where
  op : String
  payload : ReplyPayload
  deriving Repr, DecidableEq

/-- Shared tail of the four shape-creating batch handlers: optionally bind
the user-supplied object id to the fresh shape id and build the reply
(`if new_shape and shape_object_id: ...` — note Python truthiness: an empty
string object id is treated as absent; a truthy non-string raises). -/
def registerShape (op : String) (m : ObjectMap) (oid : Option PVal) (newId : Nat) :
    Except OpError (ObjectMap × Reply) :=
  match oid with
  | none => .ok (m, ⟨op, .shapeNum newId⟩)
  | some v =>
    if v.truthy then
      match v with
      | .str s => .ok (omSet m s (.shapeId newId), ⟨op, .objIdStr s⟩)
      | _ => .error (.badParamType "shape_object_id")
    else .ok (m, ⟨op, .shapeNum newId⟩)

/-- Tail of the `create_slide` batch handler: optionally bind the
user-supplied slide object id; without one the reply payload is empty. -/
def registerSlide (m : ObjectMap) (oid : Option PVal) (newIdx : Nat) :
    Except OpError (ObjectMap × Reply) :=
  match oid with
  | none => .ok (m, ⟨"create_slide", .empty⟩)
  | some v =>
    if v.truthy then
      match v with
      | .str s => .ok (omSet m s (.slideIdx newIdx), ⟨"create_slide", .objIdStr s⟩)
      | _ => .error (.badParamType "slide_object_id")
    else .ok (m, ⟨"create_slide", .empty⟩)

/-- Append a freshly created shape to slide `si` and bump the id counter. -/
def addShapeToSlide (prs : Presentation) (si : Nat) (sh : Shape) : Presentation :=
  ⟨prs.layoutCount,
   prs.slides.set si
     (let sl := prs.slides.getD si defSlide
      ⟨sl.layoutIdx, sl.shapes ++ [sh]⟩),
   prs.nextShapeId + 1⟩

/-- Replace the first shape with id `sid` (the object `_get_shape_by_id`
found and the handler then mutates). -/
def replaceShapeFirst (shapes : List Shape) (sid : Nat) (f : Shape → Shape) : List Shape :=
  match shapes with
  | [] => []
  | s :: rest => if s.id = sid then f s :: rest else s :: replaceShapeFirst rest sid f

/-- Remove the first shape with id `sid` (XML element removal in
`delete_shape`). -/
def removeShapeFirst (shapes : List Shape) (sid : Nat) : List Shape :=
  match shapes with
  | [] => []
  | s :: rest => if s.id = sid then rest else s :: removeShapeFirst rest sid

/-- Update slide `si` in place. -/
def updSlide (prs : Presentation) (si : Nat) (f : Slide → Slide) : Presentation :=
  ⟨prs.layoutCount, prs.slides.set si (f (prs.slides.getD si defSlide)), prs.nextShapeId⟩

/-- The `MSO_SHAPE` member names the model knows (the real enum is larger;
only membership of the upper-cased name matters, so the set is restricted
without loss of generality for the claims below). -/
def knownShapeTypes : List String :=
  ["RECTANGLE", "OVAL", "ROUNDED_RECTANGLE", "DIAMOND", "ISOSCELES_TRIANGLE",
   "RIGHT_ARROW", "LEFT_ARROW", "UP_ARROW", "DOWN_ARROW", "PENTAGON", "HEXAGON",
   "CHEVRON", "STAR_5_POINT", "FLOWCHART_PROCESS", "FLOWCHART_DECISION",
   "FLOWCHART_TERMINATOR", "FLOWCHART_DATA", "LINE_CALLOUT_1"]

/-- The `MSO_CONNECTOR` member names. -/
def knownConnectorTypes : List String := ["STRAIGHT", "ELBOW", "CURVE"]

/-- Python `str.upper()` (ASCII case folding suffices for enum names). -/
def pyUpper (s : String) : String := ⟨s.data.map Char.toUpper⟩

/-- `_parse_shape_type`: case-insensitive `getattr(MSO_SHAPE, name.upper())`. -/
def parseShapeType (name : String) : Except OpError String :=
  if pyUpper name ∈ knownShapeTypes then .ok (pyUpper name)
  else .error (.unknownShapeType name)

/-- Read one geometry parameter; `Inches(x)` raises on non-numbers. -/
def geomInt (params : Params) (key : String) : Except OpError Int :=
  match pget params key with
  | some v =>
    match pvalAsInt v with
    | some i => .ok i
    | none => .error (.badParamType key)
  | none => .error (.badParamType key)

/-- `create_slide` body once the layout index is known: validate it against
the layout count, append a blank slide, bind the optional slide object
id. -/
def createSlideCore (i : Int) (params : Params) (prs : Presentation) (m : ObjectMap) :
    Except OpError (Presentation × ObjectMap × Reply) :=
  if 0 ≤ i ∧ i < (prs.layoutCount : Int) then
    match registerSlide m (pget params "slide_object_id") prs.slides.length with
    | .ok (m', r) =>
      .ok (⟨prs.layoutCount, prs.slides ++ [⟨i.toNat, []⟩], prs.nextShapeId⟩, m', r)
    | .error e => .error e
  else .error (.layoutIndexOutOfRange i prs.layoutCount)

/-- Batch `create_slide` handler (defaults to blank layout index 6). -/
def opCreateSlide (params : Params) (prs : Presentation) (m : ObjectMap) :
    Except OpError (Presentation × ObjectMap × Reply) :=
  match pget params "layout_index" with
  | none => createSlideCore 6 params prs m
  | some v =>
    match pvalAsInt v with
    | some i => createSlideCore i params prs m
    | none => .error (.badParamType "layout_index")

/-- Font size application of the batch `add_textbox` handler: an explicitly
given size is applied only when positive; a non-numeric one raises at the
comparison. -/
def batchFontSize (params : Params) : Except OpError (Option Int) :=
  match pget params "font_size_pt" with
  | none => .ok none
  | some v =>
    match pvalAsInt v with
    | some i => .ok (if 0 < i then some i else none)
    | none => .error (.badParamType "font_size_pt")

/-- Shared tail of the shape-creating handlers: bind the optional object id
to the fresh shape's id and append the shape to slide `si`. -/
def finishShape (op : String) (params : Params) (prs : Presentation) (si : Nat) (sh : Shape)
    (m : ObjectMap) : Except OpError (Presentation × ObjectMap × Reply) :=
  match registerShape op m (pget params "shape_object_id") sh.id with
  | .error e => .error e
  | .ok (m', r) => .ok (addShapeToSlide prs si sh, m', r)

/-- Batch `add_shape` / `add_textbox` handler. -/
def opAddShapeOrTextbox (op : String) (params : Params) (prs : Presentation) (m : ObjectMap) :
    Except OpError (Presentation × ObjectMap × Reply) :=
  match pget params "page_object_id" with
  | none => .error (.missingParam op "page_object_id")
  | some pageRef =>
    match resolveSlidePV prs m pageRef with
    | .error e => .error e
    | .ok si =>
      if (pget params "left_inches").isNone ∨ (pget params "top_inches").isNone ∨
          (pget params "width_inches").isNone ∨ (pget params "height_inches").isNone then
        .error (.missingParam op "left_inches/top_inches/width_inches/height_inches")
      else
        match geomInt params "left_inches" with
        | .error e => .error e
        | .ok l =>
        match geomInt params "top_inches" with
        | .error e => .error e
        | .ok t =>
        match geomInt params "width_inches" with
        | .error e => .error e
        | .ok w =>
        match geomInt params "height_inches" with
        | .error e => .error e
        | .ok hgt =>
          if op = "add_textbox" then
            let tfBase : TextFrame :=
              match pget params "text" with
              | some tv => ⟨mkParas (pySplit tv.pyStr litNL) none none, some true⟩
              | none => emptyTF
            match batchFontSize params with
            | .error e => .error e
            | .ok fs =>
              let boldv : Option Bool := (pget params "bold").map (fun v => v.truthy)
              let tfFinal : TextFrame :=
                ⟨tfBase.paras.map (fun p =>
                    ⟨p.text, if fs.isSome then fs else p.size,
                      if boldv.isSome then boldv else p.bold⟩),
                 tfBase.wordWrap⟩
              finishShape op params prs si
                ⟨prs.nextShapeId, .textbox, l, t, w, hgt, some tfFinal, none, none, none⟩ m
          else
            match pget params "shape_type_name" with
            | none => .error (.missingParam op "shape_type_name")
            | some stv =>
              if !stv.truthy then .error (.missingParam op "shape_type_name")
              else
                match stv with
                | .str sname =>
                  match parseShapeType sname with
                  | .error e => .error e
                  | .ok canonical =>
                    let tfv : TextFrame :=
                      match pget params "text" with
                      | some tv => ⟨mkParas (pySplit tv.pyStr litNL) none none, some true⟩
                      | none => emptyTF
                    finishShape op params prs si
                      ⟨prs.nextShapeId, .auto canonical, l, t, w, hgt, some tfv,
                       none, none, none⟩ m
                | _ => .error (.badParamType "shape_type_name")

/-- Batch `add_picture` handler (image decoding and parsing are library
behaviour, modelled as opaque and total). -/
def opAddPicture (params : Params) (prs : Presentation) (m : ObjectMap) :
    Except OpError (Presentation × ObjectMap × Reply) :=
  match pget params "page_object_id" with
  | none => .error (.missingParam "add_picture" "page_object_id")
  | some pageRef =>
    match resolveSlidePV prs m pageRef with
    | .error e => .error e
    | .ok si =>
      match pget params "image_base64" with
      | some (.str s) =>
        if s = "" then .error (.missingParam "add_picture" "image_base64")
        else
          if (pget params "left_inches").isNone ∨ (pget params "top_inches").isNone then
            .error (.missingParam "add_picture" "left_inches/top_inches")
          else
            match geomInt params "left_inches" with
            | .error e => .error e
            | .ok l =>
            match geomInt params "top_inches" with
            | .error e => .error e
            | .ok t =>
              let wv : Except OpError (Option Int) :=
                match pget params "width_inches" with
                | none => .ok none
                | some v =>
                  match pvalAsInt v with
                  | some i => .ok (some i)
                  | none => .error (.badParamType "width_inches")
              match wv with
              | .error e => .error e
              | .ok w =>
                let hv : Except OpError (Option Int) :=
                  match pget params "height_inches" with
                  | none => .ok none
                  | some v =>
                    match pvalAsInt v with
                    | some i => .ok (some i)
                    | none => .error (.badParamType "height_inches")
                match hv with
                | .error e => .error e
                | .ok hgt =>
                  finishShape "add_picture" params prs si
                    ⟨prs.nextShapeId, .picture, l, t, w.getD 0, hgt.getD 0,
                     none, none, none, none⟩ m
      | some _ => .error (.missingParam "add_picture" "image_base64")
      | none => .error (.missingParam "add_picture" "image_base64")

/-- Batch `add_connector` handler.  Endpoint attachment is wrapped in
`try`/`except` fallbacks in the source and never fails, so attachment is
modelled as always recording the endpoint shape ids. -/
def opAddConnector (params : Params) (prs : Presentation) (m : ObjectMap) :
    Except OpError (Presentation × ObjectMap × Reply) :=
  if (pget params "page_object_id").isNone ∨ (pget params "start_shape_object_id").isNone ∨
      (pget params "end_shape_object_id").isNone then
    .error (.missingParam "add_connector" "page/start_shape/end_shape_object_id")
  else
    match pget params "page_object_id" with
    | none => .error (.missingParam "add_connector" "page_object_id")
    | some pageRef =>
      match resolveSlidePV prs m pageRef with
      | .error e => .error e
      | .ok si =>
        let sl := prs.slides.getD si defSlide
        match (pget params "start_shape_object_id").map (resolveShapeObj sl m) with
        | some (.error e) => .error e
        | none => .error (.missingParam "add_connector" "start_shape_object_id")
        | some (.ok startShape) =>
          match (pget params "end_shape_object_id").map (resolveShapeObj sl m) with
          | some (.error e) => .error e
          | none => .error (.missingParam "add_connector" "end_shape_object_id")
          | some (.ok endShape) =>
            let ctv : Except OpError String :=
              match pget params "connector_type_name" with
              | none => .ok "ELBOW"
              | some (.str s) =>
                if pyUpper s ∈ knownConnectorTypes then .ok (pyUpper s)
                else .error (.unknownConnectorType s)
              | some _ => .error (.badParamType "connector_type_name")
            match ctv with
            | .error e => .error e
            | .ok ctype =>
              finishShape "add_connector" params prs si
                ⟨prs.nextShapeId, .connector ctype (some startShape.id) (some endShape.id),
                 0, 0, 1, 1, none, none, none, none⟩ m

/-- Text-frame replacement shared by `modify_shape`: clear, set the first
split segment, append one paragraph per remaining segment, enable
word-wrap. -/
def replaceText (sep : String) (s : String) : TextFrame :=
  ⟨mkParas (pySplit s sep) none none, some true⟩

/-- One optional geometry field of the batch `modify_shape` handler. -/
def geomStep (params : Params) (st : Shape × List String) (key : String)
    (setter : Int → Shape → Shape) (tag : String) : Except OpError (Shape × List String) :=
  if phas params key then
    match geomInt params key with
    | .error e => .error e
    | .ok v => .ok (setter v st.1, st.2 ++ [tag])
  else .ok st

/-- The `modify_shape` reply payload: the string reference is echoed
verbatim, an int reference is replaced by the resolved shape id. -/
def refPayload (shapeRef : PVal) (resolvedId : Nat) (changes : List String) : ReplyPayload :=
  match shapeRef with
  | .str s => .modifyStr s changes
  | _ => .modifyNum resolvedId changes

/-- The `delete_shape` reply payload, analogously. -/
def delPayload (shapeRef : PVal) (resolvedId : Nat) : ReplyPayload :=
  match shapeRef with
  | .str s => .objIdStr s
  | _ => .objIdNum resolvedId

/-- `delete_shape`'s symbol-table update: a string reference is unbound. -/
def delMap (m : ObjectMap) (shapeRef : PVal) : ObjectMap :=
  match shapeRef with
  | .str s => omDel m s
  | _ => m

/-- Batch `modify_shape` handler. -/
def opModifyShape (params : Params) (prs : Presentation) (m : ObjectMap) :
    Except OpError (Presentation × ObjectMap × Reply) :=
  match pget params "page_object_id" with
  | none => .error (.missingParam "modify_shape" "page_object_id")
  | some pageRef =>
    match pget params "shape_object_id" with
    | none => .error (.missingParam "modify_shape" "shape_object_id")
    | some shapeRef =>
      match resolveSlidePV prs m pageRef with
      | .error e => .error e
      | .ok si =>
        let sl := prs.slides.getD si defSlide
        match resolveShapeObj sl m shapeRef with
        | .error e => .error e
        | .ok sh0 =>
          -- text
          let st1 : Shape × List String :=
            if phas params "text" then
              if sh0.hasTextFrame then
                (⟨sh0.id, sh0.kind, sh0.left, sh0.top, sh0.width, sh0.height,
                  some (replaceText litNL ((pget params "text").getD (.str "")).pyStr),
                  sh0.fill, sh0.lineColor, sh0.lineWidth⟩, ["text"])
              else (sh0, [])
            else (sh0, [])
          -- geometry
          match geomStep params st1 "left_inches"
              (fun v s => ⟨s.id, s.kind, v, s.top, s.width, s.height, s.tf, s.fill,
                s.lineColor, s.lineWidth⟩) "left" with
          | .error e => .error e
          | .ok st2 =>
          match geomStep params st2 "top_inches"
              (fun v s => ⟨s.id, s.kind, s.left, v, s.width, s.height, s.tf, s.fill,
                s.lineColor, s.lineWidth⟩) "top" with
          | .error e => .error e
          | .ok st3 =>
          match geomStep params st3 "width_inches"
              (fun v s => ⟨s.id, s.kind, s.left, s.top, v, s.height, s.tf, s.fill,
                s.lineColor, s.lineWidth⟩) "width" with
          | .error e => .error e
          | .ok st4 =>
          match geomStep params st4 "height_inches"
              (fun v s => ⟨s.id, s.kind, s.left, s.top, s.width, v, s.tf, s.fill,
                s.lineColor, s.lineWidth⟩) "height" with
          | .error e => .error e
          | .ok st5 =>
            -- font attributes (only when the shape has a text frame)
            let fontv : Except OpError (Shape × List String) :=
              if st5.1.hasTextFrame then
                let szv : Except OpError (Shape × List String) :=
                  if phas params "font_size_pt" then
                    match pvalAsInt (((pget params "font_size_pt")).getD (.int 0)) with
                    | none => .error (.badParamType "font_size_pt")
                    | some i =>
                      if 0 < i then
                        .ok (⟨st5.1.id, st5.1.kind, st5.1.left, st5.1.top, st5.1.width,
                          st5.1.height,
                          (st5.1.tf).map (fun tf =>
                            ⟨tf.paras.map (fun p => ⟨p.text, some i, p.bold⟩), tf.wordWrap⟩),
                          st5.1.fill, st5.1.lineColor, st5.1.lineWidth⟩,
                          st5.2 ++ ["font_size"])
                      else .ok st5
                  else .ok st5
                match szv with
                | .error e => .error e
                | .ok st6 =>
                  if phas params "bold" then
                    let bv := (((pget params "bold")).getD (.bool false)).truthy
                    .ok (⟨st6.1.id, st6.1.kind, st6.1.left, st6.1.top, st6.1.width,
                      st6.1.height,
                      (st6.1.tf).map (fun tf =>
                        ⟨tf.paras.map (fun p => ⟨p.text, p.size, some bv⟩), tf.wordWrap⟩),
                      st6.1.fill, st6.1.lineColor, st6.1.lineWidth⟩,
                      st6.2 ++ ["font_bold"])
                  else .ok st6
              else .ok st5
            match fontv with
            | .error e => .error e
            | .ok st7 =>
              -- fill colour: requires a list of exactly 3 channels, else a
              -- warning only
              let st8 : Shape × List String :=
                match pget params "fill_color_rgb" with
                | some (.intList rgb) =>
                  if rgb.length = 3 then
                    (⟨st7.1.id, st7.1.kind, st7.1.left, st7.1.top, st7.1.width,
                      st7.1.height, st7.1.tf, some rgb, st7.1.lineColor,
                      st7.1.lineWidth⟩, st7.2 ++ ["fill_color"])
                  else st7
                | some _ => st7
                | none => st7
              -- line colour / width
              let st9 : Shape × List String :=
                match pget params "line_color_rgb" with
                | some (.intList rgb) =>
                  if rgb.length = 3 then
                    (⟨st8.1.id, st8.1.kind, st8.1.left, st8.1.top, st8.1.width,
                      st8.1.height, st8.1.tf, st8.1.fill, some rgb,
                      st8.1.lineWidth⟩, st8.2 ++ ["line_color"])
                  else st8
                | some _ => st8
                | none => st8
              let lwv : Except OpError (Shape × List String) :=
                if phas params "line_width_pt" then
                  match pvalAsInt (((pget params "line_width_pt")).getD (.int 0)) with
                  | none => .error (.badParamType "line_width_pt")
                  | some i =>
                    if 0 < i then
                      .ok (⟨st9.1.id, st9.1.kind, st9.1.left, st9.1.top, st9.1.width,
                        st9.1.height, st9.1.tf, st9.1.fill, st9.1.lineColor,
                        some i⟩, st9.2 ++ ["line_width"])
                    else .ok st9
                else .ok st9
              match lwv with
              | .error e => .error e
              | .ok stF =>
                .ok (updSlide prs si (fun sl =>
                    ⟨sl.layoutIdx, replaceShapeFirst sl.shapes sh0.id (fun _ => stF.1)⟩),
                  m, ⟨"modify_shape", refPayload shapeRef sh0.id stF.2⟩)

/-- Batch `delete_shape` handler. -/
def opDeleteShape (params : Params) (prs : Presentation) (m : ObjectMap) :
    Except OpError (Presentation × ObjectMap × Reply) :=
  match pget params "page_object_id" with
  | none => .error (.missingParam "delete_shape" "page_object_id")
  | some pageRef =>
    match pget params "shape_object_id" with
    | none => .error (.missingParam "delete_shape" "shape_object_id")
    | some shapeRef =>
      match resolveSlidePV prs m pageRef with
      | .error e => .error e
      | .ok si =>
        let sl := prs.slides.getD si defSlide
        match resolveShapeObj sl m shapeRef with
        | .error e => .error e
        | .ok sh =>
          .ok (updSlide prs si (fun sl =>
              ⟨sl.layoutIdx, removeShapeFirst sl.shapes sh.id⟩),
            delMap m shapeRef, ⟨"delete_shape", delPayload shapeRef sh.id⟩)

/-- Dispatch on the operation name, in source order; anything else is an
unsupported operation. -/
def applyOp (op : String) (params : Params) (prs : Presentation) (m : ObjectMap) :
    Except OpError (Presentation × ObjectMap × Reply) :=
  if op = "create_slide" then opCreateSlide params prs m
  else if op = "add_shape" ∨ op = "add_textbox" then opAddShapeOrTextbox op params prs m
  else if op = "add_picture" then opAddPicture params prs m
  else if op = "modify_shape" then opModifyShape params prs m
  else if op = "add_connector" then opAddConnector params prs m
  else if op = "delete_shape" then opDeleteShape params prs m
  else .error (.unsupportedOperation op)

/-- A batch request is a JSON object: a list of (operation, params) pairs;
well-formed requests have exactly one pair. -/
abbrev Request := List (String × Params)

/-- A step-level failure: a malformed request (not exactly one operation
key — the raised message carries only the index), or a handler failure
wrapped with the operation name. -/
inductive StepErr where
  | malformed
  | opFailed (op : String) (e : OpError)
  deriving Repr, DecidableEq

/-- The aggregated batch error: the 0-based request index plus, for
handler failures, the operation name and underlying error. -/
inductive BatchError where
  | malformed (idx : Nat)
  | opFailed (idx : Nat) (op : String) (e : OpError)
  deriving Repr, DecidableEq

/-- Attach the request index to a step failure. -/
def StepErr.withIndex : StepErr → Nat → BatchError
  | .malformed, i => .malformed i
  | .opFailed op e, i => .opFailed i op e

/-- The request index an aggregated batch error reports. -/
def BatchError.reqIndex : BatchError → Nat
  | .malformed i => i
  | .opFailed i _ _ => i

/-- In-memory interpreter state: the open presentation, the batch-scoped
symbol table, and the accumulated replies. -/
structure BState where
  prs : Presentation
  objMap : ObjectMap
  replies : List Reply
  deriving Repr, DecidableEq

/-- One iteration of the batch loop: validate the request shape, dispatch,
append the reply. -/
def stepRequest (st : BState) (req : Request) : Except StepErr BState :=
  match req with
  | [(op, params)] =>
    match applyOp op params st.prs st.objMap with
    | .ok (prs', m', r) => .ok ⟨prs', m', st.replies ++ [r]⟩
    | .error e => .error (.opFailed op e)
  | _ => .error .malformed

/-- The batch loop: strictly sequential, aborting at the first failure with
the aggregated error. -/
def runRequests (st : BState) (idx : Nat) (reqs : List Request) : Except BatchError BState :=
  match reqs with
  | [] => .ok st
  | r :: rest =>
    match stepRequest st r with
    | .ok st' => runRequests st' (idx + 1) rest
    | .error se => .error (se.withIndex idx)

/-- The value a successful `batch_update` returns:
`{"presentation_id": filename, "replies": [...]}`. -/
structure BatchOk where
  presentationId : String
  replies : List Reply
  deriving Repr, DecidableEq

/-- `_load_presentation`: parse the stored file, or a fresh default-template
presentation when none exists. -/
def loadPresentation (disk : Option Presentation) : Presentation :=
  match disk with
  | some p => p
  | none => emptyPresentation

/-! ### Concrete fixtures used by counterexamples and witnesses -/

/-- A presentation with three blank slides and no shapes. -/
def prs3 : Presentation := ⟨11, [⟨6, []⟩, ⟨6, []⟩, ⟨6, []⟩], 2⟩

/-- A presentation with one blank slide and no shapes. -/
def onePrs : Presentation := ⟨11, [⟨6, []⟩], 2⟩

/-- A rectangle with id 2 on fixture slides. -/
def shA : Shape := ⟨2, .auto "RECTANGLE", 1, 1, 2, 1, some emptyTF, none, none, none⟩

/-- An oval with id 3 on fixture slides. -/
def shB : Shape := ⟨3, .auto "OVAL", 4, 1, 2, 1, some emptyTF, none, none, none⟩

/-- A presentation with one slide holding the two fixture shapes. -/
def prs7 : Presentation := ⟨11, [⟨6, [shA, shB]⟩], 4⟩

/-- The standard geometry parameters used by fixture requests. -/
def geomP : Params :=
  [("left_inches", .int 1), ("top_inches", .int 1), ("width_inches", .int 2),
   ("height_inches", .int 1)]

/-- A batch that binds the symbol `"x"` to one shape and then, through a
second `add_shape` with the same `shape_object_id`, to another, before
deleting via `"x"`. -/
def rebindShapeBatch : List Request :=
  [[("create_slide", [("slide_object_id", .str "s")])],
   [("add_shape", [("page_object_id", .str "s"), ("shape_type_name", .str "RECTANGLE")] ++
      geomP ++ [("shape_object_id", .str "x")])],
   [("add_shape", [("page_object_id", .str "s"), ("shape_type_name", .str "OVAL")] ++
      geomP ++ [("shape_object_id", .str "x")])],
   [("delete_shape", [("page_object_id", .str "s"), ("shape_object_id", .str "x")])]]

/-- A batch that binds the symbol `"x"` to the first created slide and then
rebinds it to a second one. -/
def rebindSlideBatch : List Request :=
  [[("create_slide", [("slide_object_id", .str "x")])],
   [("create_slide", [("slide_object_id", .str "x")])]]

/-- The initial interpreter state of a `batch_update` call on `disk`. -/
def initState (disk : Option Presentation) : BState := ⟨loadPresentation disk, [], []⟩

/-- The interpreter state after one fixture `add_shape` step binding `"x"`. -/
def stAfterAdd : BState :=
  ⟨⟨11, [⟨6, [⟨2, .auto "RECTANGLE", 1, 1, 2, 1, some emptyTF, none, none, none⟩]⟩], 3⟩,
   [("x", .shapeId 2)], [⟨"add_shape", .objIdStr "x"⟩]⟩

/-- The interpreter state after one fixture `create_slide` step binding `"y"`. -/
def stAfterSlide : BState :=
  ⟨⟨11, [⟨6, []⟩], 2⟩, [("y", .slideIdx 0)], [⟨"create_slide", .objIdStr "y"⟩]⟩

/-- The interpreter state after a fixture `delete_shape` step unbinding `"x"`. -/
def stAfterDel : BState :=
  ⟨⟨11, [⟨6, [shB]⟩], 4⟩, [], [⟨"delete_shape", .objIdStr "x"⟩]⟩

/-- Decidable equality for `Except` values, used by `decide` in concrete
witnesses. -/
instance {ε α : Type} [DecidableEq ε] [DecidableEq α] : DecidableEq (Except ε α) :=
  fun a b =>
    match a, b with
    | .ok x, .ok y => if h : x = y then .isTrue (by simp [h]) else .isFalse (by simp [h])
    | .error x, .error y => if h : x = y then .isTrue (by simp [h]) else .isFalse (by simp [h])
    | .ok _, .error _ => .isFalse (by simp)
    | .error _, .ok _ => .isFalse (by simp)

/-- Outcome of one tool call: the resulting on-disk document, the number of
`_save_presentation` calls it performed, and its return value or error. -/
structure ToolOut (ε α : Type) where
  disk : Option Presentation
  saves : Nat
  result : Except ε α
  deriving Repr, DecidableEq

/-- The `batch_update` tool: load once, run the loop, save exactly once
after full success; on any failure propagate the aggregated error with
nothing saved. -/
def batchUpdateTool (filename : String) (disk : Option Presentation) (reqs : List Request) :
    ToolOut BatchError BatchOk :=
  match runRequests ⟨loadPresentation disk, [], []⟩ 0 reqs with
  | .ok st => ⟨some st.prs, 1, .ok ⟨filename, st.replies⟩⟩
  | .error e => ⟨disk, 0, .error e⟩

/-- `_get_slide`: non-negative in-range index or a friendly error. -/
def getSlideIdx (prs : Presentation) (i : Int) : Except OpError Nat :=
  if i < 0 then .error (.slideIndexOutOfRange i prs.slides.length)
  else if i < (prs.slides.length : Int) then .ok i.toNat
  else .error (.slideIndexOutOfRange i prs.slides.length)

/-- Single-shot `add_textbox` tool: splits the text on real newlines, sets
bold on every paragraph unconditionally and the font size only when
positive, and does not touch the word-wrap flag. -/
def addTextboxTool (disk : Option Presentation) (slideIdx : Int) (text : String)
    (l t w hgt : Int) (fontSizePt : Int) (bold : Bool) : ToolOut OpError Nat :=
  let prs := loadPresentation disk
  match getSlideIdx prs slideIdx with
  | .error e => ⟨disk, 0, .error e⟩
  | .ok si =>
    let lines := pySplit text realNL
    let paras := mkParas lines (if 0 < fontSizePt then some fontSizePt else none) (some bold)
    let sh : Shape :=
      ⟨prs.nextShapeId, .textbox, l, t, w, hgt, some ⟨paras, none⟩, none, none, none⟩
    ⟨some (addShapeToSlide prs si sh), 1, .ok sh.id⟩

/-- Single-shot `add_shape` tool: splits non-empty text on real newlines and
enables word-wrap; empty or absent text leaves the default frame. -/
def addShapeTool (disk : Option Presentation) (slideIdx : Int) (shapeTypeName : String)
    (l t w hgt : Int) (text : Option String) : ToolOut OpError Nat :=
  let prs := loadPresentation disk
  match getSlideIdx prs slideIdx with
  | .error e => ⟨disk, 0, .error e⟩
  | .ok si =>
    match parseShapeType shapeTypeName with
    | .error e => ⟨disk, 0, .error e⟩
    | .ok canonical =>
      let tfv : TextFrame :=
        match text with
        | some s =>
          if s = "" then emptyTF
          else ⟨mkParas (pySplit s realNL) none none, some true⟩
        | none => emptyTF
      let sh : Shape :=
        ⟨prs.nextShapeId, .auto canonical, l, t, w, hgt, some tfv, none, none, none⟩
      ⟨some (addShapeToSlide prs si sh), 1, .ok sh.id⟩

/-- Single-shot `delete_shape` tool. -/
def deleteShapeTool (disk : Option Presentation) (slideIdx : Int) (shapeId : Int) :
    ToolOut OpError Unit :=
  let prs := loadPresentation disk
  match getSlideIdx prs slideIdx with
  | .error e => ⟨disk, 0, .error e⟩
  | .ok si =>
    let sl := prs.slides.getD si defSlide
    match getShapeById sl shapeId with
    | .error e => ⟨disk, 0, .error e⟩
    | .ok sh =>
      let prs' := updSlide prs si (fun sl => ⟨sl.layoutIdx, removeShapeFirst sl.shapes sh.id⟩)
      ⟨some prs', 1, .ok ()⟩

/-- Arguments of the single-shot `modify_shape` tool (all optional). -/
structure ModifyArgs where
  text : Option String
  left : Option Int
  top : Option Int
  width : Option Int
  height : Option Int
  fontSizePt : Option Int
  bold : Option Bool
  fill : Option (List Int)
  lineColor : Option (List Int)
  lineWidthPt : Option Int
  deriving Repr, DecidableEq

/-- `ModifyArgs` with every field absent. -/
def noModifyArgs : ModifyArgs :=
  ⟨none, none, none, none, none, none, none, none, none, none⟩

/-- Result of the single-shot `modify_shape` tool: either the summary of
applied changes, or the "no valid modifications" reply. -/
inductive ModifyResult where
  | modified (changes : List String)
  | noChanges
  deriving Repr, DecidableEq

/-- Single-shot `modify_shape` tool.  Mirrors the source order: geometry,
then text/font (only for shapes with a text frame), then fill, then line;
a colour list without exactly 3 channels is skipped with a warning; when no
change was applied the tool returns without saving. -/
def modifyShapeTool (disk : Option Presentation) (slideIdx : Int) (shapeId : Int)
    (a : ModifyArgs) : ToolOut OpError ModifyResult :=
  let prs := loadPresentation disk
  match getSlideIdx prs slideIdx with
  | .error e => ⟨disk, 0, .error e⟩
  | .ok si =>
    let sl := prs.slides.getD si defSlide
    match getShapeById sl shapeId with
    | .error e => ⟨disk, 0, .error e⟩
    | .ok sh0 =>
      -- geometry
      let g1 : Shape × List String :=
        match a.left with
        | some v => (⟨sh0.id, sh0.kind, v, sh0.top, sh0.width, sh0.height, sh0.tf,
            sh0.fill, sh0.lineColor, sh0.lineWidth⟩, ["position (left)"])
        | none => (sh0, [])
      let g2 : Shape × List String :=
        match a.top with
        | some v => (⟨g1.1.id, g1.1.kind, g1.1.left, v, g1.1.width, g1.1.height, g1.1.tf,
            g1.1.fill, g1.1.lineColor, g1.1.lineWidth⟩, g1.2 ++ ["position (top)"])
        | none => g1
      let g3 : Shape × List String :=
        match a.width with
        | some v => (⟨g2.1.id, g2.1.kind, g2.1.left, g2.1.top, v, g2.1.height, g2.1.tf,
            g2.1.fill, g2.1.lineColor, g2.1.lineWidth⟩, g2.2 ++ ["size (width)"])
        | none => g2
      let g4 : Shape × List String :=
        match a.height with
        | some v => (⟨g3.1.id, g3.1.kind, g3.1.left, g3.1.top, g3.1.width, v, g3.1.tf,
            g3.1.fill, g3.1.lineColor, g3.1.lineWidth⟩, g3.2 ++ ["size (height)"])
        | none => g3
      -- text and font, only for shapes with a text frame
      let g5 : Shape × List String :=
        if g4.1.hasTextFrame then
          let t1 : Shape × List String :=
            match a.text with
            | some s => (⟨g4.1.id, g4.1.kind, g4.1.left, g4.1.top, g4.1.width, g4.1.height,
                some (replaceText realNL s), g4.1.fill, g4.1.lineColor, g4.1.lineWidth⟩,
                g4.2 ++ ["text content"])
            | none => g4
          let t2 : Shape × List String :=
            match a.fontSizePt with
            | some v => (⟨t1.1.id, t1.1.kind, t1.1.left, t1.1.top, t1.1.width, t1.1.height,
                (t1.1.tf).map (fun tf =>
                  ⟨tf.paras.map (fun p => ⟨p.text, some v, p.bold⟩), tf.wordWrap⟩),
                t1.1.fill, t1.1.lineColor, t1.1.lineWidth⟩, t1.2)
            | none => t1
          let t3 : Shape × List String :=
            match a.bold with
            | some b => (⟨t2.1.id, t2.1.kind, t2.1.left, t2.1.top, t2.1.width, t2.1.height,
                (t2.1.tf).map (fun tf =>
                  ⟨tf.paras.map (fun p => ⟨p.text, p.size, some b⟩), tf.wordWrap⟩),
                t2.1.fill, t2.1.lineColor, t2.1.lineWidth⟩, t2.2)
            | none => t2
          if a.fontSizePt.isSome ∨ a.bold.isSome then
            (t3.1, t3.2 ++ ["font attributes (size/bold)"])
          else t3
        else g4
      -- fill colour
      let g6 : Shape × List String :=
        match a.fill with
        | some rgb =>
          if rgb.length = 3 then
            (⟨g5.1.id, g5.1.kind, g5.1.left, g5.1.top, g5.1.width, g5.1.height, g5.1.tf,
              some rgb, g5.1.lineColor, g5.1.lineWidth⟩, g5.2 ++ ["fill color"])
          else g5
        | none => g5
      -- line colour / width
      let g7 : Shape × List String :=
        match a.lineColor with
        | some rgb =>
          if rgb.length = 3 then
            (⟨g6.1.id, g6.1.kind, g6.1.left, g6.1.top, g6.1.width, g6.1.height, g6.1.tf,
              g6.1.fill, some rgb, g6.1.lineWidth⟩, g6.2)
          else g6
        | none => g6
      let g8 : Shape × List String :=
        match a.lineWidthPt with
        | some v => (⟨g7.1.id, g7.1.kind, g7.1.left, g7.1.top, g7.1.width, g7.1.height,
            g7.1.tf, g7.1.fill, g7.1.lineColor, some v⟩, g7.2)
        | none => g7
      let lineChanged : Bool :=
        (match a.lineColor with
         | some rgb => rgb.length = 3
         | none => false) || a.lineWidthPt.isSome
      let gF : Shape × List String :=
        if lineChanged then (g8.1, g8.2 ++ ["line style (color/width)"]) else g8
      if gF.2.isEmpty then ⟨disk, 0, .ok .noChanges⟩
      else
        let prs' := updSlide prs si (fun sl =>
          ⟨sl.layoutIdx, replaceShapeFirst sl.shapes sh0.id (fun _ => gF.1)⟩)
        ⟨some prs', 1, .ok (.modified gF.2)⟩

/-! ### The document store path model (`_get_presentation_path`)

`SAVE_DIR` is modelled as the resolved component list `["presentations"]`;
a path is a component list.  `Path(f).name` keeps exactly the characters
after the last `/`, which is faithful for every input this function feeds
it (the argument always ends in `".pptx"`, so the final component is
non-empty and is neither `"."` nor `".."`). -/

/-- Python `s.endswith(suffix)`. -/
def pyEndsWith (s suffix : String) : Bool := suffix.data.isSuffixOf s.data

/-- `pathlib.Path(s).name`: the characters after the last slash. -/
def pyPathName (s : String) : String :=
  ⟨(s.data.reverse.takeWhile (fun c => c ≠ '/')).reverse⟩

/-- The resolved save directory (`SAVE_DIR.resolve()`), as a component
list. -/
def saveDirParts : List String := ["presentations"]

/-- `Path.resolve()` on a component list: drop `"."`, let `".."` pop. -/
def normalizePath (comps : List String) : List String :=
  comps.foldl
    (fun acc c => if c = "." then acc else if c = ".." then acc.dropLast else acc ++ [c])
    []

/-- `_get_presentation_path`: append the `.pptx` extension when missing,
keep only the filename's last path component, and reject the result if its
resolution escapes the save directory. -/
def getPresentationPath (filename : String) : Except String (List String) :=
  let f := if pyEndsWith filename ".pptx" then filename else filename ++ ".pptx"
  let nm := pyPathName f
  let path := saveDirParts ++ [nm]
  if saveDirParts.isPrefixOf (normalizePath path) then .ok path
  else .error "Invalid filename causing path traversal."

/-- Split a character list on `/` (Python `s.split('/')`), for turning a
raw filename into its path components. -/
def splitSlashes (cs : List Char) : List (List Char) :=
  cs.foldr
    (fun c acc =>
      match acc with
      | [] => if c = '/' then [[], []] else [[c]]
      | a :: rest => if c = '/' then [] :: a :: rest else (c :: a) :: rest)
    [[]]

/-- Modelled from the spec: the spec reads `open(name)` as resolving `name`
against the configured save directory and rejecting "any resolved path
escaping" it.  This definition computes that naive resolved path: the save
directory joined with all of the filename's path components (extension
appended as the store does), then resolved. -/
def specResolvedPath (filename : String) : List String :=
  let f := if pyEndsWith filename ".pptx" then filename else filename ++ ".pptx"
  let comps := ((splitSlashes f.data).map (fun l => (⟨l⟩ : String))).filter
    (fun c => c ≠ "" ∧ c ≠ ".")
  normalizePath (saveDirParts ++ comps)

/-- Modelled from the spec: whether the naive resolved path of `filename`
escapes the save directory. -/
def specEscapes (filename : String) : Bool :=
  !(saveDirParts.isPrefixOf (specResolvedPath filename))

/-! ### Specification helpers used by the claim statements -/

/-- The parameter key that carries the user-supplied symbolic object id for
an operation. -/
def oidField (op : String) : String :=
  if op = "create_slide" then "slide_object_id" else "shape_object_id"

/-- The object id an optional parameter value effectively supplies: only a
truthy string counts (Python truthiness makes an empty string behave as
absent; truthy non-strings are rejected elsewhere). -/
def truthyStr : Option PVal → Option String
  | some (.str s) => if s = "" then none else some s
  | _ => none

/-- The symbolic object id a request effectively supplies for the object it
creates. -/
def suppliedId (op : String) (params : Params) : Option String :=
  truthyStr (pget params (oidField op))

/-- Whether a request can write (bind, rebind or unbind) the symbol `x`:
`delete_shape` writes the symbol its string shape reference names;
`modify_shape` never writes; every other operation writes the symbol it
supplies as a (truthy string) object id. -/
def touchesSym (x : String) (req : Request) : Bool :=
  match req with
  | [(op, params)] =>
    if op = "delete_shape" then pget params "shape_object_id" == some (.str x)
    else op != "modify_shape" && suppliedId op params == some x
  | _ => false

/-- How one successful request may change the symbol table: not at all;
binding a supplied id to the slide appended by `create_slide` or to the
next library shape id; or `delete_shape` unbinding its string shape
reference. -/
def mapEvolution (m m' : ObjectMap) (op : String) (params : Params) (prs : Presentation) :
    Prop :=
  m' = m ∨
  (op ≠ "modify_shape" ∧ op ≠ "delete_shape" ∧
    ∃ s, suppliedId op params = some s ∧
      (m' = omSet m s (.slideIdx prs.slides.length) ∨
       m' = omSet m s (.shapeId prs.nextShapeId))) ∨
  (op = "delete_shape" ∧ ∃ s, pget params "shape_object_id" = some (.str s) ∧
    m' = omDel m s)

/-- The reply contract of one successful request, as the code implements
it: the reply names the operation; a supplied (truthy string) object id is
echoed; otherwise shape-creating operations echo the library-assigned shape
id and `create_slide` echoes nothing; `modify_shape` and `delete_shape`
echo their string shape reference verbatim when one was given and the
resolved numeric shape id otherwise. -/
def replyMatches (op : String) (params : Params) (r : Reply) : Prop :=
  r.op = op ∧
  (if op = "modify_shape" then
    match pget params "shape_object_id" with
    | some (.str s) => ∃ ch, r.payload = .modifyStr s ch
    | _ => ∃ n ch, r.payload = .modifyNum n ch
   else if op = "delete_shape" then
    match pget params "shape_object_id" with
    | some (.str s) => r.payload = .objIdStr s
    | _ => ∃ n, r.payload = .objIdNum n
   else
    match suppliedId op params with
    | some s => r.payload = .objIdStr s
    | none =>
      if op = "create_slide" then r.payload = .empty
      else ∃ n, r.payload = .shapeNum n)

theorem omGet_omRemove_ne {m : ObjectMap} {k x : String} (h : x ≠ k) :
    omGet (omRemove m k) x = omGet m x := by
  induction m with
  | nil => rfl
  | cons a t ih =>
    by_cases hak : a.1 = k
    · simp [omRemove, omGet, hak, ih, Ne.symm h]
    · simp [omRemove, omGet, hak, ih]

theorem omGet_omSet_self (m : ObjectMap) (k : String) (v : MapVal) :
    omGet (omSet m k v) k = some v := by
  simp [omGet, omSet]

theorem omGet_omSet_ne (m : ObjectMap) (k : String) (v : MapVal) (x : String) (h : x ≠ k) :
    omGet (omSet m k v) x = omGet m x := by
  simp [omGet, omSet, Ne.symm h, omGet_omRemove_ne h]

theorem omGet_omDel_self (m : ObjectMap) (k : String) :
    omGet (omDel m k) k = none := by
  induction m with
  | nil => rfl
  | cons a t ih =>
    by_cases hak : a.1 = k
    · simpa [omDel, omRemove, hak] using ih
    · simpa [omDel, omRemove, omGet, hak] using ih

theorem omGet_omDel_ne (m : ObjectMap) (k x : String) (h : x ≠ k) :
    omGet (omDel m k) x = omGet m x := omGet_omRemove_ne h

theorem addShapeToSlide_len (prs : Presentation) (si : Nat) (sh : Shape) :
    (addShapeToSlide prs si sh).slides.length = prs.slides.length ∧
    (addShapeToSlide prs si sh).nextShapeId = prs.nextShapeId + 1 := by
  simp [addShapeToSlide]

theorem registerShape_spec {op : String} {m : ObjectMap} {oid : Option PVal} {newId : Nat}
    {m' : ObjectMap} {r : Reply}
    (h : registerShape op m oid newId = .ok (m', r)) :
    (truthyStr oid = none ∧ m' = m ∧ r = ⟨op, .shapeNum newId⟩) ∨
    (∃ s, truthyStr oid = some s ∧ m' = omSet m s (.shapeId newId) ∧
      r = ⟨op, .objIdStr s⟩) := by
  cases oid with
  | none =>
    left
    simp only [registerShape] at h
    cases h
    simp [truthyStr]
  | some v =>
    cases v with
    | str s =>
      by_cases hs : s = ""
      · left
        subst hs
        simp [registerShape, PVal.truthy] at h
        simp [truthyStr, h.1.symm, h.2.symm]
      · right
        refine ⟨s, ?_⟩
        simp [registerShape, PVal.truthy, hs] at h
        simp [truthyStr, hs, h.1.symm, h.2.symm]
    | int i =>
      by_cases hi : i = 0
      · left
        subst hi
        simp [registerShape, PVal.truthy] at h
        simp [truthyStr, h.1.symm, h.2.symm]
      · simp [registerShape, PVal.truthy, hi] at h
    | bool b =>
      cases b
      · left
        simp [registerShape, PVal.truthy] at h
        simp [truthyStr, h.1.symm, h.2.symm]
      · simp [registerShape, PVal.truthy] at h
    | intList l =>
      cases l with
      | nil =>
        left
        simp [registerShape, PVal.truthy] at h
        simp [truthyStr, h.1.symm, h.2.symm]
      | cons a t =>
        simp [registerShape, PVal.truthy] at h

theorem registerSlide_spec {m : ObjectMap} {oid : Option PVal} {newIdx : Nat}
    {m' : ObjectMap} {r : Reply}
    (h : registerSlide m oid newIdx = .ok (m', r)) :
    (truthyStr oid = none ∧ m' = m ∧ r = ⟨"create_slide", .empty⟩) ∨
    (∃ s, truthyStr oid = some s ∧ m' = omSet m s (.slideIdx newIdx) ∧
      r = ⟨"create_slide", .objIdStr s⟩) := by
  cases oid with
  | none =>
    left
    simp only [registerSlide] at h
    cases h
    simp [truthyStr]
  | some v =>
    cases v with
    | str s =>
      by_cases hs : s = ""
      · left
        subst hs
        simp [registerSlide, PVal.truthy] at h
        simp [truthyStr, h.1.symm, h.2.symm]
      · right
        refine ⟨s, ?_⟩
        simp [registerSlide, PVal.truthy, hs] at h
        simp [truthyStr, hs, h.1.symm, h.2.symm]
    | int i =>
      by_cases hi : i = 0
      · left
        subst hi
        simp [registerSlide, PVal.truthy] at h
        simp [truthyStr, h.1.symm, h.2.symm]
      · simp [registerSlide, PVal.truthy, hi] at h
    | bool b =>
      cases b
      · left
        simp [registerSlide, PVal.truthy] at h
        simp [truthyStr, h.1.symm, h.2.symm]
      · simp [registerSlide, PVal.truthy] at h
    | intList l =>
      cases l with
      | nil =>
        left
        simp [registerSlide, PVal.truthy] at h
        simp [truthyStr, h.1.symm, h.2.symm]
      | cons a t =>
        simp [registerSlide, PVal.truthy] at h

theorem finishShape_spec {op : String} {params : Params} {prs : Presentation} {si : Nat}
    {sh : Shape} {m : ObjectMap} {prs' : Presentation} {m' : ObjectMap} {r : Reply}
    (h : finishShape op params prs si sh m = .ok (prs', m', r)) :
    prs' = addShapeToSlide prs si sh ∧
    ((truthyStr (pget params "shape_object_id") = none ∧ m' = m ∧
        r = ⟨op, .shapeNum sh.id⟩) ∨
      (∃ s, truthyStr (pget params "shape_object_id") = some s ∧
        m' = omSet m s (.shapeId sh.id) ∧ r = ⟨op, .objIdStr s⟩)) := by
  unfold finishShape at h
  cases hr : registerShape op m (pget params "shape_object_id") sh.id with
  | error e => rw [hr] at h; cases h
  | ok p =>
    obtain ⟨m2, r2⟩ := p
    rw [hr] at h
    cases h
    exact ⟨rfl, registerShape_spec hr⟩

theorem createSlideCore_spec {i : Int} {params : Params} {prs : Presentation}
    {m : ObjectMap} {prs' : Presentation} {m' : ObjectMap} {r : Reply}
    (h : createSlideCore i params prs m = .ok (prs', m', r)) :
    prs'.slides.length = prs.slides.length + 1 ∧ prs'.nextShapeId = prs.nextShapeId ∧
    ((truthyStr (pget params "slide_object_id") = none ∧ m' = m ∧
        r = ⟨"create_slide", .empty⟩) ∨
      (∃ s, truthyStr (pget params "slide_object_id") = some s ∧
        m' = omSet m s (.slideIdx prs.slides.length) ∧
        r = ⟨"create_slide", .objIdStr s⟩)) := by
  unfold createSlideCore at h
  split at h
  · cases hr : registerSlide m (pget params "slide_object_id") prs.slides.length with
    | ok p =>
      obtain ⟨m2, r2⟩ := p
      rw [hr] at h
      cases h
      exact ⟨by simp, rfl, registerSlide_spec hr⟩
    | error e => rw [hr] at h; cases h
  · cases h

theorem opCreateSlide_spec {params : Params} {prs : Presentation}
    {m : ObjectMap} {prs' : Presentation} {m' : ObjectMap} {r : Reply}
    (h : opCreateSlide params prs m = .ok (prs', m', r)) :
    prs'.slides.length = prs.slides.length + 1 ∧ prs'.nextShapeId = prs.nextShapeId ∧
    ((truthyStr (pget params "slide_object_id") = none ∧ m' = m ∧
        r = ⟨"create_slide", .empty⟩) ∨
      (∃ s, truthyStr (pget params "slide_object_id") = some s ∧
        m' = omSet m s (.slideIdx prs.slides.length) ∧
        r = ⟨"create_slide", .objIdStr s⟩)) := by
  unfold opCreateSlide at h
  split at h
  · exact createSlideCore_spec h
  · split at h
    · exact createSlideCore_spec h
    · cases h

theorem opAddST_spec {op : String} {params : Params} {prs : Presentation} {m : ObjectMap}
    {prs' : Presentation} {m' : ObjectMap} {r : Reply}
    (h : opAddShapeOrTextbox op params prs m = .ok (prs', m', r)) :
    prs'.slides.length = prs.slides.length ∧ prs'.nextShapeId = prs.nextShapeId + 1 ∧
    ((truthyStr (pget params "shape_object_id") = none ∧ m' = m ∧
        r = ⟨op, .shapeNum prs.nextShapeId⟩) ∨
      (∃ s, truthyStr (pget params "shape_object_id") = some s ∧
        m' = omSet m s (.shapeId prs.nextShapeId) ∧ r = ⟨op, .objIdStr s⟩)) := by
  unfold opAddShapeOrTextbox at h
  repeat' split at h
  all_goals try cases h
  all_goals obtain ⟨hprs, hrest⟩ := finishShape_spec h
  all_goals subst hprs
  all_goals simp [addShapeToSlide]
  all_goals exact hrest

theorem opAddPicture_spec {params : Params} {prs : Presentation} {m : ObjectMap}
    {prs' : Presentation} {m' : ObjectMap} {r : Reply}
    (h : opAddPicture params prs m = .ok (prs', m', r)) :
    prs'.slides.length = prs.slides.length ∧ prs'.nextShapeId = prs.nextShapeId + 1 ∧
    ((truthyStr (pget params "shape_object_id") = none ∧ m' = m ∧
        r = ⟨"add_picture", .shapeNum prs.nextShapeId⟩) ∨
      (∃ s, truthyStr (pget params "shape_object_id") = some s ∧
        m' = omSet m s (.shapeId prs.nextShapeId) ∧ r = ⟨"add_picture", .objIdStr s⟩)) := by
  unfold opAddPicture at h
  repeat' split at h
  all_goals try cases h
  all_goals obtain ⟨hprs, hrest⟩ := finishShape_spec h
  all_goals subst hprs
  all_goals simp [addShapeToSlide]
  all_goals exact hrest

theorem opAddConnector_spec {params : Params} {prs : Presentation} {m : ObjectMap}
    {prs' : Presentation} {m' : ObjectMap} {r : Reply}
    (h : opAddConnector params prs m = .ok (prs', m', r)) :
    prs'.slides.length = prs.slides.length ∧ prs'.nextShapeId = prs.nextShapeId + 1 ∧
    ((truthyStr (pget params "shape_object_id") = none ∧ m' = m ∧
        r = ⟨"add_connector", .shapeNum prs.nextShapeId⟩) ∨
      (∃ s, truthyStr (pget params "shape_object_id") = some s ∧
        m' = omSet m s (.shapeId prs.nextShapeId) ∧
        r = ⟨"add_connector", .objIdStr s⟩)) := by
  unfold opAddConnector at h
  repeat' (first | dsimp only at h | split at h)
  all_goals try cases h
  all_goals obtain ⟨hprs, hrest⟩ := finishShape_spec h
  all_goals subst hprs
  all_goals simp [addShapeToSlide]
  all_goals exact hrest

theorem opModifyShape_spec {params : Params} {prs : Presentation} {m : ObjectMap}
    {prs' : Presentation} {m' : ObjectMap} {r : Reply}
    (h : opModifyShape params prs m = .ok (prs', m', r)) :
    prs'.slides.length = prs.slides.length ∧ prs'.nextShapeId = prs.nextShapeId ∧
    m' = m ∧
    ∃ shapeRef, pget params "shape_object_id" = some shapeRef ∧
      ∃ n ch, r = ⟨"modify_shape", refPayload shapeRef n ch⟩ := by
  unfold opModifyShape at h
  cases hpage : pget params "page_object_id" with
  | none => rw [hpage] at h; cases h
  | some pageRef =>
    rw [hpage] at h
    cases href : pget params "shape_object_id" with
    | none => rw [href] at h; cases h
    | some shapeRef =>
      rw [href] at h
      repeat' (first | dsimp only at h | split at h)
      all_goals try cases h
      all_goals exact ⟨by simp [updSlide], by simp [updSlide], rfl, shapeRef, rfl, _, _, rfl⟩

theorem opDeleteShape_spec {params : Params} {prs : Presentation} {m : ObjectMap}
    {prs' : Presentation} {m' : ObjectMap} {r : Reply}
    (h : opDeleteShape params prs m = .ok (prs', m', r)) :
    prs'.slides.length = prs.slides.length ∧ prs'.nextShapeId = prs.nextShapeId ∧
    ∃ shapeRef, pget params "shape_object_id" = some shapeRef ∧ m' = delMap m shapeRef ∧
      ∃ n, r = ⟨"delete_shape", delPayload shapeRef n⟩ := by
  unfold opDeleteShape at h
  cases hpage : pget params "page_object_id" with
  | none => rw [hpage] at h; cases h
  | some pageRef =>
    rw [hpage] at h
    cases href : pget params "shape_object_id" with
    | none => rw [href] at h; cases h
    | some shapeRef =>
      rw [href] at h
      repeat' (first | dsimp only at h | split at h)
      all_goals try cases h
      all_goals exact ⟨by simp [updSlide], by simp [updSlide], shapeRef, rfl, rfl, _, rfl⟩

theorem applyOp_spec {op : String} {params : Params} {prs : Presentation} {m : ObjectMap}
    {prs' : Presentation} {m' : ObjectMap} {r : Reply}
    (h : applyOp op params prs m = .ok (prs', m', r)) :
    replyMatches op params r ∧ mapEvolution m m' op params prs := by
  unfold applyOp at h
  split_ifs at h with h1 h2 h3 h4 h5 h6
  · -- create_slide
    subst h1
    obtain ⟨-, -, hd⟩ := opCreateSlide_spec h
    rcases hd with ⟨hn, hm, hr⟩ | ⟨s, hs, hm, hr⟩
    · subst hr
      exact ⟨by simp [replyMatches, suppliedId, oidField, hn],
        Or.inl hm⟩
    · subst hr
      refine ⟨by simp [replyMatches, suppliedId, oidField, hs], ?_⟩
      exact Or.inr (Or.inl ⟨by simp, by simp, s, by simp [suppliedId, oidField, hs],
        Or.inl hm⟩)
  · -- add_shape / add_textbox
    have hop : op ≠ "modify_shape" ∧ op ≠ "delete_shape" ∧ op ≠ "create_slide" := by
      rcases h2 with h2 | h2 <;> subst h2 <;> exact ⟨by simp, by simp, by simp⟩
    obtain ⟨-, -, hd⟩ := opAddST_spec h
    rcases hd with ⟨hn, hm, hr⟩ | ⟨s, hs, hm, hr⟩
    · subst hr
      refine ⟨⟨rfl, ?_⟩, Or.inl hm⟩
      have hsup : suppliedId op params = none := by
        rw [suppliedId, oidField, if_neg hop.2.2]
        exact hn
      simp [hop.1, hop.2.1, hop.2.2, hsup]
    · subst hr
      have hsup : suppliedId op params = some s := by
        rw [suppliedId, oidField, if_neg hop.2.2]
        exact hs
      exact ⟨⟨rfl, by simp [hop.1, hop.2.1, hsup]⟩,
        Or.inr (Or.inl ⟨hop.1, hop.2.1, s, hsup, Or.inr hm⟩)⟩
  · -- add_picture
    subst h3
    obtain ⟨-, -, hd⟩ := opAddPicture_spec h
    rcases hd with ⟨hn, hm, hr⟩ | ⟨s, hs, hm, hr⟩
    · subst hr
      exact ⟨by simp [replyMatches, suppliedId, oidField, hn], Or.inl hm⟩
    · subst hr
      exact ⟨by simp [replyMatches, suppliedId, oidField, hs],
        Or.inr (Or.inl ⟨by simp, by simp, s, by simp [suppliedId, oidField, hs],
          Or.inr hm⟩)⟩
  · -- modify_shape
    subst h4
    obtain ⟨-, -, hm, shapeRef, href, n, ch, hr⟩ := opModifyShape_spec h
    subst hr
    refine ⟨⟨rfl, ?_⟩, Or.inl hm⟩
    simp only [reduceIte]
    rw [href]
    cases shapeRef <;> simp [refPayload]
  · -- add_connector
    subst h5
    obtain ⟨-, -, hd⟩ := opAddConnector_spec h
    rcases hd with ⟨hn, hm, hr⟩ | ⟨s, hs, hm, hr⟩
    · subst hr
      exact ⟨by simp [replyMatches, suppliedId, oidField, hn], Or.inl hm⟩
    · subst hr
      exact ⟨by simp [replyMatches, suppliedId, oidField, hs],
        Or.inr (Or.inl ⟨by simp, by simp, s, by simp [suppliedId, oidField, hs],
          Or.inr hm⟩)⟩
  · -- delete_shape
    subst h6
    obtain ⟨-, -, shapeRef, href, hm, n, hr⟩ := opDeleteShape_spec h
    subst hr
    constructor
    · refine ⟨rfl, ?_⟩
      simp only [reduceIte]
      rw [href]
      cases shapeRef <;> simp [delPayload]
    · cases shapeRef with
      | str s => exact Or.inr (Or.inr ⟨rfl, s, href, by simpa [delMap] using hm⟩)
      | int i => exact Or.inl (by simpa [delMap] using hm)
      | bool b => exact Or.inl (by simpa [delMap] using hm)
      | intList l => exact Or.inl (by simpa [delMap] using hm)

theorem stepRequest_spec {st : BState} {req : Request} {st' : BState}
    (h : stepRequest st req = .ok st') :
    ∃ op params r, req = [(op, params)] ∧
      applyOp op params st.prs st.objMap = .ok (st'.prs, st'.objMap, r) ∧
      st'.replies = st.replies ++ [r] := by
  cases req with
  | nil => cases h
  | cons a t =>
    cases t with
    | cons b t2 => simp [stepRequest] at h
    | nil =>
      obtain ⟨op, params⟩ := a
      simp only [stepRequest] at h
      cases happ : applyOp op params st.prs st.objMap with
      | error e => rw [happ] at h; cases h
      | ok trip =>
        obtain ⟨prs', m', r⟩ := trip
        rw [happ] at h
        cases h
        exact ⟨op, params, r, rfl, happ, rfl⟩

theorem stepRequest_untouched {st st' : BState} {req : Request} {x : String}
    (h : stepRequest st req = .ok st') (hx : touchesSym x req = false) :
    omGet st'.objMap x = omGet st.objMap x := by
  obtain ⟨op, params, r, hreq, happ, -⟩ := stepRequest_spec h
  subst hreq
  obtain ⟨-, hmap⟩ := applyOp_spec happ
  simp only [touchesSym] at hx
  rcases hmap with hm | ⟨hnm, hnd, s, hs, hset⟩ | ⟨hdel, s, hs, hdel2⟩
  · rw [hm]
  · have hsx : x ≠ s := by
      intro he
      rw [if_neg hnd] at hx
      simp [hnm, hs, he] at hx
    rcases hset with h1 | h1 <;> rw [h1, omGet_omSet_ne _ _ _ _ hsx]
  · have hsx : x ≠ s := by
      intro he
      rw [if_pos hdel] at hx
      simp [hs, he] at hx
    rw [hdel2, omGet_omDel_ne _ _ _ hsx]

theorem runRequests_untouched {reqs : List Request} {st : BState} {idx : Nat} {st' : BState}
    {x : String} (h : runRequests st idx reqs = .ok st')
    (hx : ∀ r ∈ reqs, touchesSym x r = false) :
    omGet st'.objMap x = omGet st.objMap x := by
  induction reqs generalizing st idx with
  | nil =>
    simp only [runRequests] at h
    cases h
    rfl
  | cons r rest ih =>
    simp only [runRequests] at h
    cases hstep : stepRequest st r with
    | error se => rw [hstep] at h; cases h
    | ok st1 =>
      rw [hstep] at h
      rw [ih h (fun q hq => hx q (List.mem_cons_of_mem _ hq))]
      exact stepRequest_untouched hstep (hx r (List.mem_cons_self _ _))

theorem runRequests_error_first {reqs : List Request} {st : BState} {idx : Nat}
    {e : BatchError} (h : runRequests st idx reqs = .error e) :
    ∃ k st1 se, k < reqs.length ∧ e = se.withIndex (idx + k) ∧
      runRequests st idx (reqs.take k) = .ok st1 ∧
      stepRequest st1 (reqs.getD k []) = .error se := by
  induction reqs generalizing st idx with
  | nil => simp [runRequests] at h
  | cons r rest ih =>
    simp only [runRequests] at h
    cases hstep : stepRequest st r with
    | error se =>
      rw [hstep] at h
      cases h
      exact ⟨0, st, se, by simp, by simp, by simp [runRequests], by simpa using hstep⟩
    | ok st1 =>
      rw [hstep] at h
      obtain ⟨k, st2, se, hk, he, hrun, hstep2⟩ := ih h
      refine ⟨k + 1, st2, se, by simpa using Nat.succ_lt_succ hk, ?_, ?_, by simpa using hstep2⟩
      · rw [he, Nat.add_assoc, Nat.add_comm 1 k]
      · simp only [List.take_succ_cons, runRequests, hstep]
        exact hrun

theorem runRequests_replies {reqs : List Request} {st : BState} {idx : Nat} {st' : BState}
    (h : runRequests st idx reqs = .ok st') :
    ∃ tail, st'.replies = st.replies ++ tail ∧ tail.length = reqs.length ∧
      ∀ k, k < reqs.length → ∃ op params,
        reqs.getD k [] = [(op, params)] ∧
        replyMatches op params (tail.getD k ⟨"", .empty⟩) := by
  induction reqs generalizing st idx with
  | nil =>
    simp only [runRequests] at h
    cases h
    exact ⟨[], by simp, rfl, by simp⟩
  | cons r rest ih =>
    simp only [runRequests] at h
    cases hstep : stepRequest st r with
    | error se => rw [hstep] at h; cases h
    | ok st1 =>
      rw [hstep] at h
      obtain ⟨op, params, rp, hreq, happ, hrepl⟩ := stepRequest_spec hstep
      obtain ⟨hmatch, -⟩ := applyOp_spec happ
      obtain ⟨tail, ht1, ht2, ht3⟩ := ih h
      refine ⟨rp :: tail, ?_, by simp [ht2], ?_⟩
      · rw [ht1, hrepl]
        simp
      · intro k hk
        cases k with
        | zero => exact ⟨op, params, by simp [hreq], by simpa using hmatch⟩
        | succ k' =>
          obtain ⟨op2, params2, hq, hm⟩ := ht3 k' (by simp only [List.length_cons] at hk; omega)
          exact ⟨op2, params2, by simpa using hq, by simpa using hm⟩

/-- Claim C10: in `batch_update`, a `create_slide` request whose parameters
omit `layout_index` does not fail (for any well-typed `slide_object_id`):
it appends one new slide created from layout index 6 — the blank layout —
provided the document has at least 7 layouts. -/
theorem c10_create_slide_default_layout (prs : Presentation) (m : ObjectMap)
    (params : Params) (h7 : 7 ≤ prs.layoutCount)
    (hno : pget params "layout_index" = none)
    (hoid : ∀ v, pget params "slide_object_id" = some v → ∃ s, v = PVal.str s) :
    ∃ m' r, opCreateSlide params prs m =
      .ok (⟨prs.layoutCount, prs.slides ++ [⟨6, []⟩], prs.nextShapeId⟩, m', r) ∧
      r.op = "create_slide" := by
  unfold opCreateSlide createSlideCore
  rw [hno]
  rw [if_pos ⟨by norm_num, by exact_mod_cast Nat.lt_of_lt_of_le (by norm_num) h7⟩]
  cases hv : pget params "slide_object_id" with
  | none => exact ⟨m, _, rfl, rfl⟩
  | some v =>
    obtain ⟨s, rfl⟩ := hoid v hv
    by_cases hs : s = ""
    · subst hs
      simp [registerSlide, PVal.truthy]
      exact ⟨m, _, ⟨rfl, rfl⟩, rfl⟩
    · simp [registerSlide, PVal.truthy, hs]
      exact ⟨_, _, ⟨rfl, rfl⟩, rfl⟩

/-- Witness for C10 at a concrete input: a bare `create_slide` request on
the default empty presentation appends a blank-layout slide. -/
theorem c10_witness :
    ∃ m' r, opCreateSlide [] emptyPresentation [] =
      .ok (⟨emptyPresentation.layoutCount, emptyPresentation.slides ++ [⟨6, []⟩],
        emptyPresentation.nextShapeId⟩, m', r) ∧
      r.op = "create_slide" :=
  c10_create_slide_default_layout emptyPresentation [] [] (by decide) (by decide)
    (fun v hv => by simp [pget] at hv)

/-- Claim C6 counterexample: a string symbol bound to a shape id (not to a
slide) does not fail with an unknown-reference error — the resolver
reinterprets the shape id as a slide index and succeeds when it is in
range, and reports an out-of-bounds error (not an unknown-reference error)
otherwise. -/
theorem c6_counterexample :
    resolveSlideIdx prs3 [("x", .shapeId 2)] (.str "x") = .ok 2 ∧
    resolveSlideIdx prs3 [("x", .shapeId 7)] (.str "x") =
      .error (.resolvedSlideOutOfBounds 7) := by
  exact ⟨rfl, rfl⟩

/-- Claim C6, amended: an integer slide reference fails with an
out-of-range error exactly when it is negative or at least the slide
count, and otherwise resolves to that position.  A string reference
resolves to the bound slide when the symbol is bound to one; when the
symbol is bound to a shape id, that id is reinterpreted as a slide index
(resolving when in range and failing with an out-of-bounds error
otherwise); the unknown-reference error occurs exactly when the symbol is
absent. -/
theorem c6_resolve_slide_amended (prs : Presentation) (m : ObjectMap) :
    (∀ i : Int,
      (0 ≤ i ∧ i < (prs.slides.length : Int) →
        resolveSlideIdx prs m (.int i) = .ok i.toNat) ∧
      (i < 0 ∨ (prs.slides.length : Int) ≤ i →
        resolveSlideIdx prs m (.int i) =
          .error (.slideIndexOutOfRange i prs.slides.length))) ∧
    (∀ s : String,
      (omGet m s = none →
        resolveSlideIdx prs m (.str s) = .error (.slideRefUnknown s)) ∧
      (∀ k, omGet m s = some (.slideIdx k) →
        resolveSlideIdx prs m (.str s) = .ok k) ∧
      (∀ n, omGet m s = some (.shapeId n) → n < prs.slides.length →
        resolveSlideIdx prs m (.str s) = .ok n) ∧
      (∀ n, omGet m s = some (.shapeId n) → prs.slides.length ≤ n →
        resolveSlideIdx prs m (.str s) =
          .error (.resolvedSlideOutOfBounds n))) := by
  refine ⟨fun i => ⟨fun hi => ?_, fun hi => ?_⟩,
    fun s => ⟨fun hs => ?_, fun k hk => ?_, fun n hn h1 => ?_, fun n hn h1 => ?_⟩⟩
  · simp [resolveSlideIdx, hi]
  · have : ¬(0 ≤ i ∧ i < (prs.slides.length : Int)) := by omega
    simp [resolveSlideIdx, this]
  · simp [resolveSlideIdx, hs]
  · simp [resolveSlideIdx, hk]
  · simp [resolveSlideIdx, hn, h1]
  · simp [resolveSlideIdx, hn, Nat.not_lt_of_le h1]

/-- Witness for C6 at concrete inputs: on the three-slide fixture, index 1
resolves, index 3 is out of range, an absent symbol is an unknown
reference, and a slide-bound symbol resolves. -/
theorem c6_witness :
    resolveSlideIdx prs3 [] (.int 1) = .ok ((1 : Int)).toNat ∧
    resolveSlideIdx prs3 [] (.int 3) =
      .error (.slideIndexOutOfRange 3 prs3.slides.length) ∧
    resolveSlideIdx prs3 [] (.str "y") = .error (.slideRefUnknown "y") ∧
    resolveSlideIdx prs3 [("y", .slideIdx 2)] (.str "y") = .ok 2 :=
  ⟨((c6_resolve_slide_amended prs3 []).1 1).1 (by decide),
   ((c6_resolve_slide_amended prs3 []).1 3).2 (by decide),
   ((c6_resolve_slide_amended prs3 []).2 "y").1 (by decide),
   ((c6_resolve_slide_amended prs3 [("y", .slideIdx 2)]).2 "y").2.1 2 (by decide)⟩

theorem pptx_suffix (filename : String) :
    ".pptx".data <:+
      (if pyEndsWith filename ".pptx" then filename else filename ++ ".pptx").data := by
  by_cases hp : pyEndsWith filename ".pptx"
  · rw [if_pos hp]
    exact List.isSuffixOf_iff_suffix.1 hp
  · rw [if_neg hp, String.data_append]
    exact List.suffix_append _ _

theorem pyPathName_of_suffix {f : String} (h : ".pptx".data <:+ f.data) :
    (∃ rest, (pyPathName f).data.reverse = 'x' :: rest) ∧
    ∀ c ∈ (pyPathName f).data, c ≠ '/' := by
  obtain ⟨pre, hpre⟩ := h
  constructor
  · refine ⟨(f.data.reverse.takeWhile (fun c => c ≠ '/')).tail, ?_⟩
    have hrev : f.data.reverse = 'x' :: ('t' :: 'p' :: 'p' :: '.' :: pre.reverse) := by
      rw [← hpre, List.reverse_append]
      rfl
    simp only [pyPathName, List.reverse_reverse]
    rw [hrev]
    rw [List.takeWhile_cons_of_pos (by decide)]
    rfl
  · intro c hc
    simp only [pyPathName] at hc
    rw [List.mem_reverse] at hc
    have := List.mem_takeWhile_imp hc
    simpa using this

theorem name_ne_of_last_x {nm : String} (h : ∃ rest, nm.data.reverse = 'x' :: rest) :
    nm ≠ "." ∧ nm ≠ ".." := by
  obtain ⟨rest, hr⟩ := h
  constructor
  · intro he
    rw [he] at hr
    simp at hr
  · intro he
    rw [he] at hr
    simp at hr

/-- Claim C5 counterexample: the filename `"../../etc/passwd"` naively
resolves outside the save directory, yet `_get_presentation_path` does not
fail with an invalid-name error — it silently sanitizes the filename to its
basename inside the save directory. -/
theorem c5_counterexample :
    specEscapes "../../etc/passwd" = true ∧
    getPresentationPath "../../etc/passwd" = .ok ["presentations", "passwd.pptx"] := by
  exact ⟨rfl, rfl⟩

/-- Claim C5, amended: `_get_presentation_path` never fails — every
filename (path-traversal components included) is reduced to the final path
component of its `.pptx`-suffixed form, and the resulting path always
resolves inside the save directory, so no file outside the save directory
is ever read or written; the invalid-name rejection branch is unreachable. -/
theorem c5_sandbox_amended (filename : String) :
    ∃ nm, getPresentationPath filename = .ok (saveDirParts ++ [nm]) ∧
      normalizePath (saveDirParts ++ [nm]) = saveDirParts ++ [nm] ∧
      saveDirParts.isPrefixOf (normalizePath (saveDirParts ++ [nm])) = true := by
  have hsuf := pptx_suffix filename
  have hx := pyPathName_of_suffix hsuf
  have hne := name_ne_of_last_x hx.1
  refine ⟨pyPathName (if pyEndsWith filename ".pptx" then filename
    else filename ++ ".pptx"), ?_, ?_, ?_⟩
  · unfold getPresentationPath
    rw [if_pos]
    simp [saveDirParts, normalizePath, hne.1, hne.2, List.isPrefixOf]
  · simp [saveDirParts, normalizePath, hne.1, hne.2]
  · simp [saveDirParts, normalizePath, hne.1, hne.2, List.isPrefixOf]

theorem getD_set_self {α : Type} (l : List α) (i : Nat) (a d : α) (h : i < l.length) :
    (l.set i a).getD i d = a := by
  rw [List.getD_eq_getElem?_getD, List.getElem?_set_self']
  simp [h]

theorem map_id_removeShapeFirst (l : List Shape) (n : Nat) :
    (removeShapeFirst l n).map (fun s => s.id) = (l.map (fun s => s.id)).erase n := by
  induction l with
  | nil => rfl
  | cons s rest ih =>
    by_cases hs : s.id = n
    · simp [removeShapeFirst, hs, List.erase_cons]
    · simp [removeShapeFirst, hs, List.erase_cons, ih]

/-- Claim C7: `delete_shape` is idempotent-failing.  For a shape id present
on a slide (shape ids on a slide are unique), the first `delete_shape`
call succeeds, saves once, and removes exactly that shape; a second call
with the same id on the same slide fails with a shape-not-found error
listing the remaining ids, performs no save, and leaves the on-disk
document unchanged. -/
theorem c7_delete_shape_idempotent_failing (prs : Presentation) (si sid : Nat)
    (hsi : si < prs.slides.length)
    (hmem : sid ∈ (prs.slides.getD si defSlide).shapes.map (fun s => s.id))
    (hnodup : ((prs.slides.getD si defSlide).shapes.map (fun s => s.id)).Nodup) :
    ∃ prs', deleteShapeTool (some prs) (si : Int) (sid : Int) = ⟨some prs', 1, .ok ()⟩ ∧
      (prs'.slides.getD si defSlide).shapes.map (fun s => s.id) =
        ((prs.slides.getD si defSlide).shapes.map (fun s => s.id)).erase sid ∧
      sid ∉ (prs'.slides.getD si defSlide).shapes.map (fun s => s.id) ∧
      deleteShapeTool (some prs') (si : Int) (sid : Int) =
        ⟨some prs', 0, .error (.shapeIdNotFound (sid : Int)
          ((prs'.slides.getD si defSlide).shapes.map (fun s => s.id)))⟩ := by
  have hslide : getSlideIdx prs (si : Int) = .ok si := by
    unfold getSlideIdx
    rw [if_neg (by omega), if_pos (by exact_mod_cast hsi)]
    simp
  obtain ⟨sh, hfind⟩ : ∃ sh,
      (prs.slides.getD si defSlide).shapes.find? (fun s => (s.id : Int) == (sid : Int)) =
        some sh := by
    rw [List.mem_map] at hmem
    obtain ⟨sh0, hsh0, hid⟩ := hmem
    have : ((prs.slides.getD si defSlide).shapes.find?
        (fun s => (s.id : Int) == (sid : Int))).isSome := by
      rw [List.find?_isSome]
      exact ⟨sh0, hsh0, by simp [hid]⟩
    exact Option.isSome_iff_exists.1 this
  have hshid : sh.id = sid := by
    have := List.find?_some hfind
    simpa using this
  have hget : getShapeById (prs.slides.getD si defSlide) (sid : Int) = .ok sh := by
    unfold getShapeById
    rw [hfind]
  set sl' : Slide := ⟨(prs.slides.getD si defSlide).layoutIdx,
    removeShapeFirst (prs.slides.getD si defSlide).shapes sh.id⟩ with hsl'
  set prs' : Presentation :=
    ⟨prs.layoutCount, prs.slides.set si sl', prs.nextShapeId⟩ with hprs'
  have h1 : deleteShapeTool (some prs) (si : Int) (sid : Int) = ⟨some prs', 1, .ok ()⟩ := by
    unfold deleteShapeTool
    simp only [loadPresentation, hslide, hget]
    rfl
  have hgetD : prs'.slides.getD si defSlide = sl' := by
    rw [hprs']
    exact getD_set_self _ _ _ _ hsi
  have hids : (prs'.slides.getD si defSlide).shapes.map (fun s => s.id) =
      ((prs.slides.getD si defSlide).shapes.map (fun s => s.id)).erase sid := by
    rw [hgetD, hsl']
    simp only [← hshid]
    exact map_id_removeShapeFirst _ _
  have hnot : sid ∉ (prs'.slides.getD si defSlide).shapes.map (fun s => s.id) := by
    rw [hids]
    exact fun hm => ((hnodup.mem_erase_iff).1 hm).1 rfl
  have hlen' : prs'.slides.length = prs.slides.length := by
    rw [hprs']
    simp
  have hslide' : getSlideIdx prs' (si : Int) = .ok si := by
    unfold getSlideIdx
    rw [hlen']
    rw [if_neg (by omega), if_pos (by exact_mod_cast hsi)]
    simp
  have hget2 : getShapeById (prs'.slides.getD si defSlide) (sid : Int) =
      .error (.shapeIdNotFound (sid : Int)
        ((prs'.slides.getD si defSlide).shapes.map (fun s => s.id))) := by
    unfold getShapeById
    have : (prs'.slides.getD si defSlide).shapes.find?
        (fun s => (s.id : Int) == (sid : Int)) = none := by
      rw [List.find?_eq_none]
      intro x hx hpx
      apply hnot
      rw [List.mem_map]
      refine ⟨x, hx, ?_⟩
      simpa using hpx
    rw [this]
  have h2 : deleteShapeTool (some prs') (si : Int) (sid : Int) =
      ⟨some prs', 0, .error (.shapeIdNotFound (sid : Int)
        ((prs'.slides.getD si defSlide).shapes.map (fun s => s.id)))⟩ := by
    unfold deleteShapeTool
    simp only [loadPresentation, hslide', hget2]
  exact ⟨prs', h1, hids, hnot, h2⟩

/-- Witness for C7 at a concrete input: deleting shape 2 from the two-shape
fixture slide succeeds and removes it; deleting it again fails with the
remaining id listed, without changing the document. -/
theorem c7_witness :
    ∃ prs', deleteShapeTool (some prs7) ((0 : Nat) : Int) ((2 : Nat) : Int) =
        ⟨some prs', 1, .ok ()⟩ ∧
      (prs'.slides.getD 0 defSlide).shapes.map (fun s => s.id) =
        ((prs7.slides.getD 0 defSlide).shapes.map (fun s => s.id)).erase 2 ∧
      2 ∉ (prs'.slides.getD 0 defSlide).shapes.map (fun s => s.id) ∧
      deleteShapeTool (some prs') ((0 : Nat) : Int) ((2 : Nat) : Int) =
        ⟨some prs', 0, .error (.shapeIdNotFound ((2 : Nat) : Int)
          ((prs'.slides.getD 0 defSlide).shapes.map (fun s => s.id)))⟩ :=
  c7_delete_shape_idempotent_failing prs7 0 2 (by decide) (by decide) (by decide)

theorem getSlideIdx_nat (prs : Presentation) (si : Nat) (h : si < prs.slides.length) :
    getSlideIdx prs (si : Int) = .ok si := by
  unfold getSlideIdx
  rw [if_neg (by omega), if_pos (by exact_mod_cast h)]
  simp

theorem resolveSlidePV_nat (prs : Presentation) (m : ObjectMap) (si : Nat)
    (h : si < prs.slides.length) :
    resolveSlidePV prs m (.int (si : Int)) = .ok si := by
  simp only [resolveSlidePV, PVal.toRef, resolveSlideIdx]
  rw [if_pos ⟨by omega, by exact_mod_cast h⟩]
  simp

/-- Claim C8 counterexample: the single-shot `add_textbox` splits on real
newlines but never enables word-wrap; the batch `add_textbox` enables
word-wrap but splits on the literal two-character sequence backslash-n, so
the two-line text `"a\nb"` produces a single paragraph there. -/
theorem c8_counterexample :
    ((addTextboxTool (some onePrs) 0 "a\nb" 1 1 2 1 0 false).disk.map
      (fun p => (p.slides.getD 0 defSlide).shapes.map (fun s => s.tf))) =
      some [some ⟨[⟨"a", none, some false⟩, ⟨"b", none, some false⟩], none⟩] ∧
    ((batchUpdateTool "deck" (some onePrs)
        [[("add_textbox",
           [("page_object_id", .int 0), ("text", .str "a\nb")] ++ geomP)]]).disk.map
      (fun p => (p.slides.getD 0 defSlide).shapes.map (fun s => s.tf))) =
      some [some ⟨[⟨"a\nb", none, none⟩], some true⟩] := by
  exact ⟨rfl, rfl⟩

/-- Claim C8, amended: paragraph construction maps split segments
one-to-one onto paragraphs (n segments give n paragraphs), but the
splitting and word-wrap behaviour differ by entry point: the single-shot
`add_textbox` splits on real newlines and leaves word-wrap unset; the
single-shot `add_shape` with non-empty text splits on real newlines and
enables word-wrap; the batch `add_textbox` and `add_shape` handlers split
on the literal two-character backslash-n sequence and enable word-wrap. -/
theorem c8_text_split_amended :
    (∀ (lines : List String) (sz : Option Int) (bd : Option Bool),
      (mkParas lines sz bd).map (fun p => p.text) = lines) ∧
    (∀ (prs : Presentation) (si : Nat), si < prs.slides.length → ∀ txt l t w hgt fs b,
      addTextboxTool (some prs) (si : Int) txt l t w hgt fs b =
        ⟨some (addShapeToSlide prs si
          ⟨prs.nextShapeId, .textbox, l, t, w, hgt,
           some ⟨mkParas (pySplit txt realNL)
             (if 0 < fs then some fs else none) (some b), none⟩, none, none, none⟩),
         1, .ok prs.nextShapeId⟩) ∧
    (∀ (prs : Presentation) (si : Nat), si < prs.slides.length → ∀ txt l t w hgt, txt ≠ "" →
      addShapeTool (some prs) (si : Int) "RECTANGLE" l t w hgt (some txt) =
        ⟨some (addShapeToSlide prs si
          ⟨prs.nextShapeId, .auto "RECTANGLE", l, t, w, hgt,
           some ⟨mkParas (pySplit txt realNL) none none, some true⟩, none, none, none⟩),
         1, .ok prs.nextShapeId⟩) ∧
    (∀ (prs : Presentation) (si : Nat), si < prs.slides.length → ∀ txt : String,
      opAddShapeOrTextbox "add_textbox"
          ([("page_object_id", .int (si : Int)), ("text", .str txt)] ++ geomP) prs [] =
        .ok (addShapeToSlide prs si
          ⟨prs.nextShapeId, .textbox, 1, 1, 2, 1,
           some ⟨mkParas (pySplit txt litNL) none none, some true⟩, none, none, none⟩,
          [], ⟨"add_textbox", .shapeNum prs.nextShapeId⟩)) ∧
    (∀ (prs : Presentation) (si : Nat), si < prs.slides.length → ∀ txt : String,
      opAddShapeOrTextbox "add_shape"
          ([("page_object_id", .int (si : Int)), ("shape_type_name", .str "RECTANGLE"),
            ("text", .str txt)] ++ geomP) prs [] =
        .ok (addShapeToSlide prs si
          ⟨prs.nextShapeId, .auto "RECTANGLE", 1, 1, 2, 1,
           some ⟨mkParas (pySplit txt litNL) none none, some true⟩, none, none, none⟩,
          [], ⟨"add_shape", .shapeNum prs.nextShapeId⟩)) := by
  refine ⟨fun lines sz bd => ?_, ?_, ?_, ?_, ?_⟩
  · induction lines with
    | nil => rfl
    | cons a l ih =>
      simp only [mkParas, List.map_cons] at ih ⊢
      rw [ih]
  · intro prs si h txt l t w hgt fs b
    unfold addTextboxTool
    simp only [loadPresentation, getSlideIdx_nat prs si h]
  · intro prs si h txt l t w hgt htxt
    unfold addShapeTool
    simp only [loadPresentation, getSlideIdx_nat prs si h, parseShapeType]
    rw [if_pos (by decide)]
    have hup : pyUpper "RECTANGLE" = "RECTANGLE" := by decide
    simp [htxt, hup]
  · intro prs si h txt
    unfold opAddShapeOrTextbox
    simp [pget, List.lookup, geomP, resolveSlidePV_nat prs [] si h, batchFontSize,
      geomInt, pvalAsInt, registerShape, finishShape, addShapeToSlide, PVal.pyStr]
  · intro prs si h txt
    unfold opAddShapeOrTextbox
    have hup : pyUpper "RECTANGLE" = "RECTANGLE" := by decide
    simp [pget, List.lookup, geomP, resolveSlidePV_nat prs [] si h, parseShapeType,
      geomInt, pvalAsInt, registerShape, finishShape, addShapeToSlide, PVal.pyStr,
      PVal.truthy, knownShapeTypes, hup]

theorem set_getD_self {α : Type} (l : List α) (i : Nat) (d : α) :
    l.set i (l.getD i d) = l := by
  induction l generalizing i with
  | nil => rfl
  | cons a t ih =>
    cases i with
    | zero => rfl
    | succ j =>
      simp only [List.set, List.getD_cons_succ]
      rw [ih j]

theorem replaceFirst_found {shapes : List Shape} {sid : Int} {sh : Shape}
    (h : shapes.find? (fun s => (s.id : Int) == sid) = some sh) :
    replaceShapeFirst shapes sh.id (fun _ => sh) = shapes := by
  induction shapes with
  | nil => cases h
  | cons s rest ih =>
    by_cases hs : ((s.id : Int) == sid) = true
    · simp only [List.find?, hs] at h
      cases h
      simp [replaceShapeFirst]
    · have hs' : ((s.id : Int) == sid) = false := by simpa using hs
      simp only [List.find?, hs'] at h
      have hshid : (sh.id : Int) = sid := by simpa using List.find?_some h
      have hne : s.id ≠ sh.id := by
        intro he
        apply hs
        simp [he, hshid]
      simp [replaceShapeFirst, hne, ih h]

/-- Claim C9: `modify_shape` is lenient.  With resolvable slide and shape
references: a fill or line colour list whose length is not 3 never fails
the operation and leaves the colour unchanged (other requested fields are
still applied); and zero modification fields yield no error, a
no-changes reply, and an untouched document (single-shot form does not
even save). -/
theorem c9_modify_shape_lenient (prs : Presentation) (si sid : Nat) (sh : Shape)
    (hsi : si < prs.slides.length)
    (hfind : (prs.slides.getD si defSlide).shapes.find?
      (fun s => (s.id : Int) == (sid : Int)) = some sh) :
    modifyShapeTool (some prs) (si : Int) (sid : Int) noModifyArgs =
      ⟨some prs, 0, .ok .noChanges⟩ ∧
    (∀ l : List Int, l.length ≠ 3 →
      modifyShapeTool (some prs) (si : Int) (sid : Int)
        ⟨none, none, none, none, none, none, none, some l, none, none⟩ =
        ⟨some prs, 0, .ok .noChanges⟩) ∧
    (∀ l : List Int, l.length ≠ 3 →
      modifyShapeTool (some prs) (si : Int) (sid : Int)
        ⟨none, none, none, none, none, none, none, none, some l, none⟩ =
        ⟨some prs, 0, .ok .noChanges⟩) ∧
    (∀ l : List Int, l.length ≠ 3 →
      modifyShapeTool (some prs) (si : Int) (sid : Int)
        ⟨none, some 5, none, none, none, none, none, some l, none, none⟩ =
        ⟨some (updSlide prs si (fun sl => ⟨sl.layoutIdx,
            replaceShapeFirst sl.shapes sh.id (fun _ =>
              ⟨sh.id, sh.kind, 5, sh.top, sh.width, sh.height, sh.tf, sh.fill,
               sh.lineColor, sh.lineWidth⟩)⟩)),
         1, .ok (.modified ["position (left)"])⟩) ∧
    (opModifyShape [("page_object_id", .int (si : Int)),
        ("shape_object_id", .int (sid : Int))] prs [] =
      .ok (prs, [], ⟨"modify_shape", .modifyNum sh.id []⟩)) ∧
    (∀ l : List Int, l.length ≠ 3 →
      opModifyShape [("page_object_id", .int (si : Int)),
          ("shape_object_id", .int (sid : Int)), ("fill_color_rgb", .intList l)] prs [] =
        .ok (prs, [], ⟨"modify_shape", .modifyNum sh.id []⟩)) := by
  have hget : getShapeById (prs.slides.getD si defSlide) (sid : Int) = .ok sh := by
    unfold getShapeById
    rw [hfind]
  have hupd : updSlide prs si (fun sl => ⟨sl.layoutIdx,
      replaceShapeFirst sl.shapes sh.id (fun _ => sh)⟩) = prs := by
    unfold updSlide
    dsimp only
    rw [replaceFirst_found hfind]
    rw [show prs.slides.set si ⟨(prs.slides.getD si defSlide).layoutIdx,
        (prs.slides.getD si defSlide).shapes⟩ = prs.slides from
      set_getD_self prs.slides si defSlide]
  refine ⟨?_, fun l hl => ?_, fun l hl => ?_, fun l hl => ?_, ?_, fun l hl => ?_⟩
  · unfold modifyShapeTool
    simp only [loadPresentation, getSlideIdx_nat prs si hsi, hget, noModifyArgs]
    simp only [ite_self, Option.isSome_none, Bool.or_self, if_neg]
    simp [hupd]
  · unfold modifyShapeTool
    simp only [loadPresentation, getSlideIdx_nat prs si hsi, hget]
    simp only [ite_self, Option.isSome_none, Bool.or_self]
    simp [hl, hupd]
  · unfold modifyShapeTool
    simp only [loadPresentation, getSlideIdx_nat prs si hsi, hget]
    simp only [ite_self, Option.isSome_none, Bool.or_self]
    simp [hl, hupd]
  · unfold modifyShapeTool
    simp only [loadPresentation, getSlideIdx_nat prs si hsi, hget]
    simp only [ite_self, Option.isSome_none, Bool.or_self]
    simp [hl, hupd]
  · unfold opModifyShape
    have hget' : getShapeById (prs.slides[si]?.getD defSlide) (sid : Int) = .ok sh := by
      rw [← List.getD_eq_getElem?_getD]
      exact hget
    simp [pget, List.lookup, resolveSlidePV_nat prs [] si hsi, resolveShapeObj,
      resolveShapePV, PVal.toRef, resolveShapeId, hget', phas, geomStep, refPayload,
      ite_self, hupd]
  · unfold opModifyShape
    have hget' : getShapeById (prs.slides[si]?.getD defSlide) (sid : Int) = .ok sh := by
      rw [← List.getD_eq_getElem?_getD]
      exact hget
    simp [pget, List.lookup, resolveSlidePV_nat prs [] si hsi, resolveShapeObj,
      resolveShapePV, PVal.toRef, resolveShapeId, hget', phas, geomStep, refPayload,
      ite_self, hl, hupd]

/-- Witness for C8 at a concrete input: both split/word-wrap regimes applied
on the one-slide fixture. -/
theorem c8_witness :
    addTextboxTool (some onePrs) ((0 : Nat) : Int) "x" 1 1 2 1 0 false =
      ⟨some (addShapeToSlide onePrs 0
        ⟨onePrs.nextShapeId, .textbox, 1, 1, 2, 1,
         some ⟨mkParas (pySplit "x" realNL)
           (if (0 : Int) < 0 then some 0 else none) (some false), none⟩,
         none, none, none⟩),
       1, .ok onePrs.nextShapeId⟩ ∧
    opAddShapeOrTextbox "add_textbox"
        ([("page_object_id", .int ((0 : Nat) : Int)), ("text", .str "x")] ++ geomP)
        onePrs [] =
      .ok (addShapeToSlide onePrs 0
        ⟨onePrs.nextShapeId, .textbox, 1, 1, 2, 1,
         some ⟨mkParas (pySplit "x" litNL) none none, some true⟩, none, none, none⟩,
        [], ⟨"add_textbox", .shapeNum onePrs.nextShapeId⟩) :=
  ⟨c8_text_split_amended.2.1 onePrs 0 (by decide) "x" 1 1 2 1 0 false,
   c8_text_split_amended.2.2.2.1 onePrs 0 (by decide) "x"⟩

/-- Witness for C9 at a concrete input: on the two-shape fixture slide, a
modification with zero fields and one with a malformed two-channel fill
colour both return a no-changes reply without error or save, and the batch
handler replies with an empty change list. -/
theorem c9_witness :
    modifyShapeTool (some prs7) ((0 : Nat) : Int) ((2 : Nat) : Int) noModifyArgs =
      ⟨some prs7, 0, .ok .noChanges⟩ ∧
    modifyShapeTool (some prs7) ((0 : Nat) : Int) ((2 : Nat) : Int)
      ⟨none, none, none, none, none, none, none, some [1, 2], none, none⟩ =
      ⟨some prs7, 0, .ok .noChanges⟩ ∧
    opModifyShape [("page_object_id", .int ((0 : Nat) : Int)),
        ("shape_object_id", .int ((2 : Nat) : Int))] prs7 [] =
      .ok (prs7, [], ⟨"modify_shape", .modifyNum shA.id []⟩) :=
  ⟨(c9_modify_shape_lenient prs7 0 2 shA (by decide) (by decide)).1,
   (c9_modify_shape_lenient prs7 0 2 shA (by decide) (by decide)).2.1 [1, 2] (by decide),
   (c9_modify_shape_lenient prs7 0 2 shA (by decide) (by decide)).2.2.2.2.1⟩

theorem stepRequest_error_of_pair {st : BState} {op : String} {params : Params}
    {se : StepErr} (h : stepRequest st [(op, params)] = .error se) :
    ∃ oe, se = .opFailed op oe := by
  simp only [stepRequest] at h
  cases happ : applyOp op params st.prs st.objMap with
  | error e2 =>
    rw [happ] at h
    cases h
    exact ⟨e2, rfl⟩
  | ok t =>
    obtain ⟨a, b, c⟩ := t
    rw [happ] at h
    cases h

/-- Claim C1 counterexample: a malformed batch request (a request dict
without exactly one operation key) aborts the batch with an error that
names only the request index — there is no operation name in it, so the
aggregated error does not identify "that request's operation name". -/
theorem c1_counterexample :
    batchUpdateTool "deck" none [[]] = ⟨none, 0, .error (.malformed 0)⟩ := rfl

/-- Claim C1, amended: when any request of a batch fails, the interpreter
stops at the first failing request (every earlier request succeeded and
that request fails from the reached state), never calls save, leaves the
on-disk document unchanged, and raises an aggregated error carrying the
failing request's 0-based index — plus its operation name whenever the
request names exactly one operation (a malformed request's error carries
the index only). -/
theorem c1_batch_abort_amended (fn : String) (disk : Option Presentation)
    (reqs : List Request) (e : BatchError)
    (h : (batchUpdateTool fn disk reqs).result = .error e) :
    (batchUpdateTool fn disk reqs).saves = 0 ∧
    (batchUpdateTool fn disk reqs).disk = disk ∧
    ∃ k se st1, k < reqs.length ∧ e = se.withIndex k ∧
      runRequests (initState disk) 0 (reqs.take k) = .ok st1 ∧
      stepRequest st1 (reqs.getD k []) = .error se ∧
      ∀ op params, reqs.getD k [] = [(op, params)] → ∃ oe, e = .opFailed k op oe := by
  unfold batchUpdateTool at h ⊢
  cases hrun : runRequests ⟨loadPresentation disk, [], []⟩ 0 reqs with
  | ok st =>
    rw [hrun] at h
    simp at h
  | error e2 =>
    rw [hrun] at h
    simp only at h
    cases h
    obtain ⟨k, st1, se, hk, he, hrunpre, hstep⟩ := runRequests_error_first hrun
    simp only [Nat.zero_add] at he
    refine ⟨rfl, rfl, k, se, st1, hk, he, hrunpre, hstep, ?_⟩
    intro op params hq
    rw [hq] at hstep
    obtain ⟨oe, hoe⟩ := stepRequest_error_of_pair hstep
    refine ⟨oe, ?_⟩
    rw [he, hoe]
    rfl

/-- Witness for C1 at a concrete input: a batch whose only request names an
unsupported operation aborts with the aggregated first-failure error, no
save, and an unchanged disk. -/
theorem c1_witness :
    (batchUpdateTool "deck" none [[("nope", [])]]).saves = 0 ∧
    (batchUpdateTool "deck" none [[("nope", [])]]).disk = none ∧
    ∃ k se st1, k < ([[("nope", ([] : Params))]] : List Request).length ∧
      (BatchError.opFailed 0 "nope" (.unsupportedOperation "nope")) = se.withIndex k ∧
      runRequests (initState none) 0 (([[("nope", [])]] : List Request).take k) = .ok st1 ∧
      stepRequest st1 (([[("nope", [])]] : List Request).getD k []) = .error se ∧
      ∀ op params, (([[("nope", [])]] : List Request)).getD k [] = [(op, params)] →
        ∃ oe, (BatchError.opFailed 0 "nope" (.unsupportedOperation "nope")) =
          .opFailed k op oe :=
  c1_batch_abort_amended "deck" none [[("nope", [])]]
    (.opFailed 0 "nope" (.unsupportedOperation "nope")) rfl

/-- Claim C2 counterexample: in a fully successful batch, a `create_slide`
without a symbolic id gets an empty reply payload (no identifier of any
kind is echoed), and an empty-string `shape_object_id` is treated as absent
(the library shape id is echoed instead of the supplied string). -/
theorem c2_counterexample :
    (batchUpdateTool "deck" none [[("create_slide", [])]]).result =
      .ok ⟨"deck", [⟨"create_slide", .empty⟩]⟩ ∧
    (batchUpdateTool "deck" none
        [[("create_slide", [])],
         [("add_shape",
           [("page_object_id", .int 0), ("shape_type_name", .str "RECTANGLE")] ++ geomP ++
           [("shape_object_id", .str "")])]]).result =
      .ok ⟨"deck", [⟨"create_slide", .empty⟩, ⟨"add_shape", .shapeNum 2⟩]⟩ := by
  exact ⟨rfl, rfl⟩

/-- Claim C2, amended: when every request of a batch succeeds, save is
called exactly once (after the loop), and the result carries the document
identifier plus exactly one reply per request in input order; each reply
names its request's operation and echoes the caller-supplied symbolic id
when a non-empty string id was given, and otherwise echoes the
library-assigned shape identifier for shape-creating operations, nothing
for `create_slide`, and the resolved numeric shape id for
`modify_shape`/`delete_shape` (whose string references are echoed
verbatim). -/
theorem c2_batch_success_amended (fn : String) (disk : Option Presentation)
    (reqs : List Request) (bo : BatchOk)
    (h : (batchUpdateTool fn disk reqs).result = .ok bo) :
    (batchUpdateTool fn disk reqs).saves = 1 ∧
    bo.presentationId = fn ∧
    bo.replies.length = reqs.length ∧
    ∀ k, k < reqs.length → ∃ op params,
      reqs.getD k [] = [(op, params)] ∧
      replyMatches op params (bo.replies.getD k ⟨"", .empty⟩) := by
  unfold batchUpdateTool at h ⊢
  cases hrun : runRequests ⟨loadPresentation disk, [], []⟩ 0 reqs with
  | error e2 =>
    rw [hrun] at h
    simp at h
  | ok st =>
    rw [hrun] at h
    simp only at h
    cases h
    obtain ⟨tail, ht1, ht2, ht3⟩ := runRequests_replies hrun
    simp only [List.nil_append] at ht1
    subst ht1
    exact ⟨rfl, rfl, ht2, ht3⟩

/-- Witness for C2 at a concrete input: a two-request batch that succeeds,
echoing the supplied slide symbol and the library shape id. -/
theorem c2_witness :
    (batchUpdateTool "deck" none
      [[("create_slide", [("slide_object_id", .str "s")])],
       [("add_shape", [("page_object_id", .str "s"),
         ("shape_type_name", .str "RECTANGLE")] ++ geomP)]]).saves = 1 ∧
    (⟨"deck", [⟨"create_slide", .objIdStr "s"⟩, ⟨"add_shape", .shapeNum 2⟩]⟩ :
      BatchOk).presentationId = "deck" ∧
    (⟨"deck", [⟨"create_slide", .objIdStr "s"⟩, ⟨"add_shape", .shapeNum 2⟩]⟩ :
      BatchOk).replies.length =
      ([[("create_slide", [("slide_object_id", PVal.str "s")])],
        [("add_shape", [("page_object_id", PVal.str "s"),
          ("shape_type_name", PVal.str "RECTANGLE")] ++ geomP)]] : List Request).length ∧
    ∀ k, k < ([[("create_slide", [("slide_object_id", PVal.str "s")])],
        [("add_shape", [("page_object_id", PVal.str "s"),
          ("shape_type_name", PVal.str "RECTANGLE")] ++ geomP)]] : List Request).length →
      ∃ op params,
        ([[("create_slide", [("slide_object_id", PVal.str "s")])],
          [("add_shape", [("page_object_id", PVal.str "s"),
            ("shape_type_name", PVal.str "RECTANGLE")] ++ geomP)]] :
              List Request).getD k [] = [(op, params)] ∧
        replyMatches op params
          ((⟨"deck", [⟨"create_slide", .objIdStr "s"⟩, ⟨"add_shape", .shapeNum 2⟩]⟩ :
            BatchOk).replies.getD k ⟨"", .empty⟩) :=
  c2_batch_success_amended "deck" none
    [[("create_slide", [("slide_object_id", .str "s")])],
     [("add_shape", [("page_object_id", .str "s"),
       ("shape_type_name", .str "RECTANGLE")] ++ geomP)]]
    ⟨"deck", [⟨"create_slide", .objIdStr "s"⟩, ⟨"add_shape", .shapeNum 2⟩]⟩ (by rfl)

/-- Claim C3 counterexample: in the fixture batch, step 1 binds `"x"` to
shape id 2, step 2 (which is not a delete of `"x"`) silently rebinds it to
shape id 3, and the later `delete_shape` referring to `"x"` therefore
resolves `"x"` to shape 3 — not to the shape bound at step 1 — leaving
shape 2 on the slide. -/
theorem c3_counterexample :
    ((runRequests (initState none) 0 (rebindShapeBatch.take 2)).map
      (fun st => omGet st.objMap "x")) = .ok (some (.shapeId 2)) ∧
    ((runRequests (initState none) 0 (rebindShapeBatch.take 3)).map
      (fun st => omGet st.objMap "x")) = .ok (some (.shapeId 3)) ∧
    ((batchUpdateTool "deck" none rebindShapeBatch).disk.map
      (fun p => (p.slides.getD 0 defSlide).shapes.map (fun s => s.id))) = some [2] ∧
    (batchUpdateTool "deck" none rebindShapeBatch).saves = 1 := by
  exact ⟨rfl, rfl, rfl, rfl⟩

/-- Claim C3, amended: a shape created in a batch step with symbolic name
`x` is bound to the library id of the created shape; the binding (and with
it resolution of `x` to that shape id) survives every later step of the
same batch that neither rebinds nor deletes `x`; a string reference bound
to a shape id resolves through `_get_shape_by_id` on the referenced slide;
and since each batch starts from an empty symbol table, `x` is unresolvable
throughout any batch none of whose requests writes `x`. -/
theorem c3_symbol_resolution_amended :
    (∀ (st : BState) (op : String) (params : Params) (st' : BState) (x : String),
      stepRequest st [(op, params)] = .ok st' →
      (op = "add_shape" ∨ op = "add_textbox" ∨ op = "add_picture" ∨ op = "add_connector") →
      suppliedId op params = some x →
      omGet st'.objMap x = some (.shapeId st.prs.nextShapeId)) ∧
    (∀ (reqs : List Request) (st : BState) (idx : Nat) (st' : BState) (x : String)
        (v : MapVal),
      runRequests st idx reqs = .ok st' → omGet st.objMap x = some v →
      (∀ r ∈ reqs, touchesSym x r = false) → omGet st'.objMap x = some v) ∧
    (∀ (m : ObjectMap) (x : String) (n : Nat) (sl : Slide),
      omGet m x = some (.shapeId n) →
      resolveShapeObj sl m (.str x) = getShapeById sl (n : Int)) ∧
    (∀ (disk : Option Presentation) (reqs : List Request) (idx : Nat) (st' : BState)
        (x : String) (sl : Slide),
      runRequests (initState disk) idx reqs = .ok st' →
      (∀ r ∈ reqs, touchesSym x r = false) →
      omGet st'.objMap x = none ∧
      resolveShapeObj sl st'.objMap (.str x) = .error (.shapeRefUnknown x)) := by
  refine ⟨?_, ?_, ?_, ?_⟩
  · intro st op params st' x h hop hsup
    obtain ⟨op2, params2, r, hreq, happ, -⟩ := stepRequest_spec h
    rw [List.cons.injEq] at hreq
    obtain ⟨hpair, -⟩ := hreq
    rw [Prod.mk.injEq] at hpair
    obtain ⟨hop2, hparams2⟩ := hpair
    subst hop2
    subst hparams2
    have hts : truthyStr (pget params "shape_object_id") = some x := by
      rcases hop with h1 | h1 | h1 | h1 <;> subst h1 <;>
        simpa [suppliedId, oidField] using hsup
    rcases hop with h1 | h1 | h1 | h1 <;> subst h1
    · rw [show applyOp "add_shape" params st.prs st.objMap =
          opAddShapeOrTextbox "add_shape" params st.prs st.objMap from by
        simp [applyOp]] at happ
      obtain ⟨-, -, hd⟩ := opAddST_spec happ
      rcases hd with ⟨hn, -, -⟩ | ⟨s, hs, hm, -⟩
      · rw [hts] at hn
        cases hn
      · rw [hts] at hs
        cases hs
        rw [hm]
        exact omGet_omSet_self _ _ _
    · rw [show applyOp "add_textbox" params st.prs st.objMap =
          opAddShapeOrTextbox "add_textbox" params st.prs st.objMap from by
        simp [applyOp]] at happ
      obtain ⟨-, -, hd⟩ := opAddST_spec happ
      rcases hd with ⟨hn, -, -⟩ | ⟨s, hs, hm, -⟩
      · rw [hts] at hn
        cases hn
      · rw [hts] at hs
        cases hs
        rw [hm]
        exact omGet_omSet_self _ _ _
    · rw [show applyOp "add_picture" params st.prs st.objMap =
          opAddPicture params st.prs st.objMap from by simp [applyOp]] at happ
      obtain ⟨-, -, hd⟩ := opAddPicture_spec happ
      rcases hd with ⟨hn, -, -⟩ | ⟨s, hs, hm, -⟩
      · rw [hts] at hn
        cases hn
      · rw [hts] at hs
        cases hs
        rw [hm]
        exact omGet_omSet_self _ _ _
    · rw [show applyOp "add_connector" params st.prs st.objMap =
          opAddConnector params st.prs st.objMap from by simp [applyOp]] at happ
      obtain ⟨-, -, hd⟩ := opAddConnector_spec happ
      rcases hd with ⟨hn, -, -⟩ | ⟨s, hs, hm, -⟩
      · rw [hts] at hn
        cases hn
      · rw [hts] at hs
        cases hs
        rw [hm]
        exact omGet_omSet_self _ _ _
  · intro reqs st idx st' x v h hv hx
    rw [runRequests_untouched h hx]
    exact hv
  · intro m x n sl hm
    simp [resolveShapeObj, resolveShapePV, PVal.toRef, resolveShapeId, hm]
  · intro disk reqs idx st' x sl h hx
    have hnone : omGet st'.objMap x = none := by
      rw [runRequests_untouched h hx]
      rfl
    refine ⟨hnone, ?_⟩
    simp [resolveShapeObj, resolveShapePV, PVal.toRef, resolveShapeId, hnone]

/-- Witness for C3 at concrete inputs: one `add_shape` step binds `"x"` to
the fresh shape id; untouched steps preserve a binding; a bound symbol
resolves through `_get_shape_by_id`; and a batch that never writes `"x"`
leaves it unresolvable. -/
theorem c3_witness :
    omGet stAfterAdd.objMap "x" = some (.shapeId onePrs.nextShapeId) ∧
    omGet (⟨⟨11, [⟨6, []⟩, ⟨6, []⟩], 2⟩,
      [("y", .slideIdx 1), ("x", .shapeId 2)],
      [⟨"create_slide", .objIdStr "y"⟩]⟩ : BState).objMap "x" = some (.shapeId 2) ∧
    resolveShapeObj ⟨6, [shA]⟩ [("x", .shapeId 2)] (.str "x") =
      getShapeById ⟨6, [shA]⟩ ((2 : Nat) : Int) ∧
    (omGet stAfterSlide.objMap "x" = none ∧
      resolveShapeObj ⟨6, []⟩ stAfterSlide.objMap (.str "x") =
        .error (.shapeRefUnknown "x")) :=
  ⟨c3_symbol_resolution_amended.1 ⟨onePrs, [], []⟩ "add_shape"
      ([("page_object_id", .int 0), ("shape_type_name", .str "RECTANGLE")] ++ geomP ++
        [("shape_object_id", .str "x")]) stAfterAdd "x" (by rfl) (Or.inl rfl) (by rfl),
   c3_symbol_resolution_amended.2.1
      [[("create_slide", [("slide_object_id", .str "y")])]]
      ⟨onePrs, [("x", .shapeId 2)], []⟩ 0
      ⟨⟨11, [⟨6, []⟩, ⟨6, []⟩], 2⟩,
        [("y", .slideIdx 1), ("x", .shapeId 2)],
        [⟨"create_slide", .objIdStr "y"⟩]⟩ "x" (.shapeId 2) (by rfl) (by rfl) (by decide),
   c3_symbol_resolution_amended.2.2.1 [("x", .shapeId 2)] "x" 2 ⟨6, [shA]⟩ rfl,
   c3_symbol_resolution_amended.2.2.2 none
      [[("create_slide", [("slide_object_id", .str "y")])]] 0 stAfterSlide "x"
      ⟨6, []⟩ (by rfl) (by decide)⟩

/-- Claim C4 counterexample: a second `create_slide` supplying the already
bound symbol `"x"` silently rebinds it to a different slide, and the batch
succeeds — the symbol table does allow rebinding without a delete. -/
theorem c4_counterexample :
    ((runRequests (initState none) 0 (rebindSlideBatch.take 1)).map
      (fun st => omGet st.objMap "x")) = .ok (some (.slideIdx 0)) ∧
    ((runRequests (initState none) 0 rebindSlideBatch).map
      (fun st => omGet st.objMap "x")) = .ok (some (.slideIdx 1)) ∧
    (batchUpdateTool "deck" none rebindSlideBatch).saves = 1 := by
  exact ⟨rfl, rfl, rfl⟩

/-- Claim C4, amended: a bound symbol's binding is changed by a successful
request only when that request explicitly supplies the same symbol — as
the object id of a newly created object (which overwrites the binding) or
as the string shape reference of a `delete_shape` (which removes the
shape-id binding); every request not writing the symbol leaves its binding
untouched. -/
theorem c4_symbol_stability_amended :
    (∀ (st : BState) (req : Request) (st' : BState) (x : String),
      stepRequest st req = .ok st' → touchesSym x req = false →
      omGet st'.objMap x = omGet st.objMap x) ∧
    (∀ (st : BState) (params : Params) (st' : BState) (x : String),
      stepRequest st [("delete_shape", params)] = .ok st' →
      pget params "shape_object_id" = some (.str x) →
      omGet st'.objMap x = none) := by
  constructor
  · intro st req st' x h hx
    exact stepRequest_untouched h hx
  · intro st params st' x h href
    obtain ⟨op2, params2, r, hreq, happ, -⟩ := stepRequest_spec h
    rw [List.cons.injEq] at hreq
    obtain ⟨hpair, -⟩ := hreq
    rw [Prod.mk.injEq] at hpair
    obtain ⟨hop2, hparams2⟩ := hpair
    subst hop2
    subst hparams2
    rw [show applyOp "delete_shape" params st.prs st.objMap =
        opDeleteShape params st.prs st.objMap from by simp [applyOp]] at happ
    obtain ⟨-, -, shapeRef, href2, hm, -⟩ := opDeleteShape_spec happ
    rw [href] at href2
    cases href2
    rw [hm]
    exact omGet_omDel_self _ _

/-- Witness for C4 at concrete inputs: a `create_slide` binding `"y"`
leaves the (unbound) symbol `"x"` untouched, and a `delete_shape` via the
string reference `"x"` removes that binding. -/
theorem c4_witness :
    omGet stAfterSlide.objMap "x" = omGet (initState none).objMap "x" ∧
    omGet stAfterDel.objMap "x" = none :=
  ⟨c4_symbol_stability_amended.1 (initState none)
      [("create_slide", [("slide_object_id", .str "y")])] stAfterSlide "x"
      (by rfl) (by decide),
   c4_symbol_stability_amended.2 ⟨prs7, [("x", .shapeId 2)], []⟩
      [("page_object_id", .int 0), ("shape_object_id", .str "x")] stAfterDel "x"
      (by rfl) (by rfl)⟩

end PptxSpec
